import Mathlib

/-!
Verification of the configuration state machine of `interface.py`
(spectra-interface).  The Python classes `GeneralConfigs` and `Calc` are
embedded shallowly: each property setter becomes a function
`State → value → State × Option String`, where the second component is
`some msg` exactly when the Python setter raises `ValueError msg`; the
first component is the state at the moment the setter finishes or raises
(every Python setter checks before mutating, so on a raise it is the
original state).  Machine floats are modelled by exact rationals, and the
imported physical constant `ECHARGE_MC = e / (2 π m c)` is a parameter
`emc : ℚ` of the field/deflection setters.
-/

namespace Spectra

/-- The `GeneralConfigs.SourceType` tags (each Python attribute holds a
distinct string, so they form an enumeration). -/
inductive SourceType where
  | user_defined
  | horizontal_undulator
  | vertical_undulator
  | helical_undulator
  | elliptic_undulator
  | figure8_undulator
  | vertical_figure8_undulator
deriving DecidableEq, Repr

/-- String value of each `SourceType` tag, as in `interface.py`. -/
def sourceTypeStr : SourceType → String
  | .user_defined => "userdefined"
  | .horizontal_undulator => "linearundulator"
  | .vertical_undulator => "verticalundulator"
  | .helical_undulator => "helicalundulator"
  | .elliptic_undulator => "ellipticundulator"
  | .figure8_undulator => "figure8undulator"
  | .vertical_figure8_undulator => "verticalfigure8undulator"

/-- The `Calc.CalcConfigs.Method` tags. -/
inductive Method where
  | near_field
  | far_field
  | wigner
deriving DecidableEq, Repr

/-- String value of each `Method` tag. -/
def methodStr : Method → String
  | .near_field => "nearfield"
  | .far_field => "farfield"
  | .wigner => "wigner"

/-- The `Calc.CalcConfigs.Variable` tags (independent variable). -/
inductive Variable where
  | energy
  | mesh_xy
  | k
deriving DecidableEq, Repr

/-- String value of each `Variable` tag. -/
def variableStr : Variable → String
  | .energy => "en"
  | .mesh_xy => "xy"
  | .k => "k"

/-- The `Calc.CalcConfigs.Output` tags. -/
inductive Output where
  | flux_density
  | flux
  | brilliance
deriving DecidableEq, Repr

/-- String value of each `Output` tag. -/
def outputStr : Output → String
  | .flux_density => "fluxdensity"
  | .flux => "partialflux"
  | .brilliance => "brilliance"

/-- The `Calc.CalcConfigs.SlitShape` tags; `none` is the empty string. -/
inductive SlitShape where
  | none
  | circular
  | rectangular
deriving DecidableEq, Repr

/-- String value of each `SlitShape` tag. -/
def slitShapeStr : SlitShape → String
  | .none => ""
  | .circular => "circslit"
  | .rectangular => "retslit"

/-- A user supplied magnetic field table: rows `(z [mm], by [T], bx [T])`,
modelling the n×3 numpy array held by `GeneralConfigs._field`. -/
def FieldTable := List (ℚ × ℚ × ℚ)

instance : DecidableEq FieldTable := by
  unfold FieldTable
  infer_instance

/-- State of a `GeneralConfigs` object (the `_`-prefixed attributes).
Optional attributes start as Python `None`, modelled by `Option`. -/
structure GeneralConfigs where
  distance_from_source : ℚ := 10
  source_type : SourceType := SourceType.user_defined
  field : Option FieldTable := Option.none
  bx_peak : Option ℚ := Option.none
  by_peak : Option ℚ := Option.none
  period : Option ℚ := Option.none
  kx : Option ℚ := Option.none
  ky : Option ℚ := Option.none
  id_length : Option ℚ := Option.none
deriving DecidableEq

/-- The state built by `GeneralConfigs.__init__`. -/
def initGeneralConfigs : GeneralConfigs := {}

/-- Setter `source_type` (no validation). -/
def set_source_type (s : GeneralConfigs) (value : SourceType) :
    GeneralConfigs × Option String :=
  ({ s with source_type := value }, Option.none)

/-- Setter `distance_from_source` (no validation). -/
def set_distance_from_source (s : GeneralConfigs) (value : ℚ) :
    GeneralConfigs × Option String :=
  ({ s with distance_from_source := value }, Option.none)

/-- Setter `field`: only allowed for a user-defined source. -/
def set_field (s : GeneralConfigs) (value : FieldTable) :
    GeneralConfigs × Option String :=
  if s.source_type ≠ SourceType.user_defined then
    (s, some "Field can only be defined if source type is user_defined.")
  else
    ({ s with field := some value }, Option.none)

/-- Step of the `period` setter: `if self._bx_peak is not None:
self._kx = 1e-3 * ECHARGE_MC * self._bx_peak * self.period`. -/
def updKxFromBx (emc p : ℚ) (s : GeneralConfigs) : GeneralConfigs :=
  match s.bx_peak with
  | some bx => { s with kx := some (1 / 1000 * emc * bx * p) }
  | Option.none => s

/-- Step of the `period` setter: `if self._by_peak is not None:
self._ky = 1e-3 * ECHARGE_MC * self._by_peak * self.period`. -/
def updKyFromBy (emc p : ℚ) (s : GeneralConfigs) : GeneralConfigs :=
  match s.by_peak with
  | some byv => { s with ky := some (1 / 1000 * emc * byv * p) }
  | Option.none => s

/-- Step of the `period` setter: `if self._kx is not None:
self._bx_peak = self._kx / (ECHARGE_MC * 1e-3 * self.period)`. -/
def updBxFromKx (emc p : ℚ) (s : GeneralConfigs) : GeneralConfigs :=
  match s.kx with
  | some kxv => { s with bx_peak := some (kxv / (emc * (1 / 1000) * p)) }
  | Option.none => s

/-- Step of the `period` setter: `if self._ky is not None:
self._by_peak = self._ky / (ECHARGE_MC * 1e-3 * self.period)`. -/
def updByFromKy (emc p : ℚ) (s : GeneralConfigs) : GeneralConfigs :=
  match s.ky with
  | some kyv => { s with by_peak := some (kyv / (emc * (1 / 1000) * p)) }
  | Option.none => s

/-- Setter `period`: stores the period and then recomputes, in source
order, `kx` from `bx_peak`, `ky` from `by_peak`, `bx_peak` from `kx` and
`by_peak` from `ky` (each only when the source operand is not `None`). -/
def set_period (emc : ℚ) (s : GeneralConfigs) (value : ℚ) :
    GeneralConfigs × Option String :=
  if s.source_type = SourceType.user_defined then
    (s, some "Period can only be defined if source type is not user_defined.")
  else
    (updByFromKy emc value (updBxFromKx emc value (updKyFromBy emc value
      (updKxFromBx emc value { s with period := some value }))),
     Option.none)

/-- Step of the `by_peak` setter: when the period is known, derive
`ky = 1e-3 * ECHARGE_MC * by_peak * period`, doubled for a vertical
figure-8 undulator. -/
def byDeriveKy (emc value : ℚ) (s : GeneralConfigs) : GeneralConfigs :=
  match s.period with
  | some p =>
    let kyv := 1 / 1000 * emc * value * p
    let kyv := if s.source_type = SourceType.vertical_figure8_undulator then
        kyv * 2
      else kyv
    { s with ky := some kyv }
  | Option.none => s

/-- Helical branch of the `by_peak` setter: copy the value to `bx_peak`
and, when the period is known, `ky` to `kx`. -/
def byHelical (value : ℚ) (s : GeneralConfigs) : GeneralConfigs :=
  if s.source_type = SourceType.helical_undulator then
    match s.period with
    | some _ => { s with bx_peak := some value, kx := s.ky }
    | Option.none => { s with bx_peak := some value }
  else s

/-- Setter `by_peak`: forbidden for user-defined and vertical undulator
sources; stores the value, derives `ky` when the period is known (doubled
for a vertical figure-8 undulator), and for a helical undulator copies the
value to `bx_peak` and `ky` to `kx`. -/
def set_by_peak (emc : ℚ) (s : GeneralConfigs) (value : ℚ) :
    GeneralConfigs × Option String :=
  if s.source_type = SourceType.user_defined then
    (s, some "By peak can only be defined if source type is not user_defined.")
  else if s.source_type = SourceType.vertical_undulator then
    (s, some "By peak can not be defined if source type is a vertical undulator.")
  else
    (byHelical value (byDeriveKy emc value { s with by_peak := some value }),
     Option.none)

/-- Step of the `bx_peak` setter: when the period is known, derive
`kx = 1e-3 * ECHARGE_MC * bx_peak * period`, doubled for a figure-8
undulator. -/
def bxDeriveKx (emc value : ℚ) (s : GeneralConfigs) : GeneralConfigs :=
  match s.period with
  | some p =>
    let kxv := 1 / 1000 * emc * value * p
    let kxv := if s.source_type = SourceType.figure8_undulator then
        kxv * 2
      else kxv
    { s with kx := some kxv }
  | Option.none => s

/-- Helical branch of the `bx_peak` setter: copy the value to `by_peak`
and, when the period is known, `kx` to `ky`. -/
def bxHelical (value : ℚ) (s : GeneralConfigs) : GeneralConfigs :=
  if s.source_type = SourceType.helical_undulator then
    match s.period with
    | some _ => { s with by_peak := some value, ky := s.kx }
    | Option.none => { s with by_peak := some value }
  else s

/-- Setter `bx_peak`: forbidden for user-defined and horizontal undulator
sources; stores the value, derives `kx` when the period is known (doubled
for a figure-8 undulator), and for a helical undulator copies the value to
`by_peak` and `kx` to `ky`. -/
def set_bx_peak (emc : ℚ) (s : GeneralConfigs) (value : ℚ) :
    GeneralConfigs × Option String :=
  if s.source_type = SourceType.user_defined then
    (s, some "Bx peak can only be defined if source type is not user_defined.")
  else if s.source_type = SourceType.horizontal_undulator then
    (s, some "Bx peak can not be defined if source type is a horizontal undulator.")
  else
    (bxHelical value (bxDeriveKx emc value { s with bx_peak := some value }),
     Option.none)

/-- Step of the `ky` setter: when the period is known, derive
`by_peak = ky / (ECHARGE_MC * 1e-3 * period)`, halved for a vertical
figure-8 undulator. -/
def kyDeriveBy (emc value : ℚ) (s : GeneralConfigs) : GeneralConfigs :=
  match s.period with
  | some p =>
    let bv := value / (emc * (1 / 1000) * p)
    let bv := if s.source_type = SourceType.vertical_figure8_undulator then
        bv / 2
      else bv
    { s with by_peak := some bv }
  | Option.none => s

/-- Helical branch of the `ky` setter: stores the value into `kx` and,
when the period is known, performs the self-assignment
`self._bx_peak = self.bx_peak` found in the source. -/
def kyHelical (value : ℚ) (s : GeneralConfigs) : GeneralConfigs :=
  if s.source_type = SourceType.helical_undulator then
    match s.period with
    | some _ => { s with kx := some value, bx_peak := s.bx_peak }
    | Option.none => { s with kx := some value }
  else s

/-- Setter `ky`: forbidden for user-defined and vertical undulator
sources; stores the value, derives `by_peak` when the period is known
(halved for a vertical figure-8 undulator); the helical branch stores the
value into `kx` and then performs the self-assignment
`self._bx_peak = self.bx_peak` found in the source. -/
def set_ky (emc : ℚ) (s : GeneralConfigs) (value : ℚ) :
    GeneralConfigs × Option String :=
  if s.source_type = SourceType.user_defined then
    (s, some "Ky can only be defined if source type is not user_defined.")
  else if s.source_type = SourceType.vertical_undulator then
    (s, some "Ky can not be defined if source type is a vertical undulator.")
  else
    (kyHelical value (kyDeriveBy emc value { s with ky := some value }),
     Option.none)

/-- Step of the `kx` setter: when the period is known, derive
`bx_peak = kx / (ECHARGE_MC * 1e-3 * period)`, halved for a figure-8
undulator. -/
def kxDeriveBx (emc value : ℚ) (s : GeneralConfigs) : GeneralConfigs :=
  match s.period with
  | some p =>
    let bv := value / (emc * (1 / 1000) * p)
    let bv := if s.source_type = SourceType.figure8_undulator then
        bv / 2
      else bv
    { s with bx_peak := some bv }
  | Option.none => s

/-- Helical branch of the `kx` setter: re-stores the value into `kx` and,
when the period is known, performs the self-assignment
`self._bx_peak = self.bx_peak` found in the source. -/
def kxHelical (value : ℚ) (s : GeneralConfigs) : GeneralConfigs :=
  if s.source_type = SourceType.helical_undulator then
    match s.period with
    | some _ => { s with kx := some value, bx_peak := s.bx_peak }
    | Option.none => { s with kx := some value }
  else s

/-- Setter `kx`: forbidden for user-defined and horizontal undulator
sources; stores the value, derives `bx_peak` when the period is known
(halved for a figure-8 undulator); the helical branch re-stores the value
into `kx` and then performs the self-assignment
`self._bx_peak = self.bx_peak` found in the source. -/
def set_kx (emc : ℚ) (s : GeneralConfigs) (value : ℚ) :
    GeneralConfigs × Option String :=
  if s.source_type = SourceType.user_defined then
    (s, some "Kx can only be defined if source type is not user_defined.")
  else if s.source_type = SourceType.horizontal_undulator then
    (s, some "Kx can not be defined if source type is a horizontal undulator.")
  else
    (kxHelical value (kxDeriveBx emc value { s with kx := some value }),
     Option.none)

/-- Setter `id_length`: forbidden for a user-defined source. -/
def set_id_length (s : GeneralConfigs) (value : ℚ) :
    GeneralConfigs × Option String :=
  if s.source_type = SourceType.user_defined then
    (s, some "Id length can only be defined if source type is not user_defined")
  else
    ({ s with id_length := some value }, Option.none)

/-- State of a `Calc` object: the inherited `GeneralConfigs` attributes
plus the calculation attributes set in `Calc.__init__`.  `slit_shape`
holds a `SlitShape` tag or Python `None` (the setter accepts both);
`observation_angle` is stored in `slit_position`, as in the source. -/
structure Calc extends GeneralConfigs where
  method : Method := Method.near_field
  indep_var : Variable := Variable.energy
  output_type : Output := Output.flux_density
  slit_shape : Option SlitShape := some SlitShape.none
  energy_range : Option (List ℚ) := Option.none
  energy_step : Option ℚ := Option.none
  slit_position : Option (List ℚ) := Option.none
  slit_acceptance : Option (List ℚ) := Option.none
  target_energy : Option ℚ := Option.none
  x_range : Option (List ℚ) := Option.none
  y_range : Option (List ℚ) := Option.none
  x_nr_pts : Option ℚ := Option.none
  y_nr_pts : Option ℚ := Option.none
  harmonic_range : Option (List ℚ) := Option.none
  k_range : Option (List ℚ) := Option.none
  k_nr_pts : Option ℚ := Option.none
  slice_x : Option ℚ := Option.none
  slice_y : Option ℚ := Option.none
  slice_px : Option ℚ := Option.none
  slice_py : Option ℚ := Option.none
  add_phase_error : Option Bool := Option.none
  random_seed : Option ℚ := Option.none
  rms_peak_field_var : Option ℚ := Option.none
  rms_phase_error : Option ℚ := Option.none
  rms_traj_error : Option (List ℚ) := Option.none
deriving DecidableEq

/-- The state built by `Calc.__init__`. -/
def initCalc : Calc := {}

/-- Setter `method` (no validation). -/
def set_method (c : Calc) (value : Method) : Calc × Option String :=
  ({ c with method := value }, Option.none)

/-- Setter `indep_var`: stores the tag; for `energy` it resets
`slit_position` to `[0, 0]`, for `mesh_xy` it resets `slit_position` to
`None` and `slit_shape` to the empty shape. -/
def set_indep_var (c : Calc) (value : Variable) : Calc × Option String :=
  let c := { c with indep_var := value }
  let c := if value = Variable.energy then
      { c with slit_position := some [0, 0] }
    else if value = Variable.mesh_xy then
      { c with slit_position := Option.none,
               slit_shape := some SlitShape.none }
    else c
  (c, Option.none)

/-- Setter `output_type`: stores the tag; for `flux_density` it resets
`slit_shape` to the empty shape. -/
def set_output_type (c : Calc) (value : Output) : Calc × Option String :=
  let c := { c with output_type := value }
  let c := if value = Output.flux_density then
      { c with slit_shape := some SlitShape.none }
    else c
  (c, Option.none)

/-- Setter `energy_range`: requires the independent variable `energy`. -/
def set_energy_range (c : Calc) (value : List ℚ) : Calc × Option String :=
  if c.indep_var ≠ Variable.energy then
    (c, some "Energy range can only be defined if the independent variable is energy.")
  else
    ({ c with energy_range := some value }, Option.none)

/-- Setter `energy_step`: requires the independent variable `energy`. -/
def set_energy_step (c : Calc) (value : ℚ) : Calc × Option String :=
  if c.indep_var ≠ Variable.energy then
    (c, some "Energy step can only be defined if the independent variable is energy.")
  else
    ({ c with energy_step := some value }, Option.none)

/-- Setter `observation_angle`: requires the independent variable
`energy`; stores into `slit_position`. -/
def set_observation_angle (c : Calc) (value : List ℚ) : Calc × Option String :=
  if c.indep_var ≠ Variable.energy then
    (c, some "Observation position can only be defined if the independent variable is energy.")
  else
    ({ c with slit_position := some value }, Option.none)

/-- Setter `slit_acceptance`: requires the output type `flux`. -/
def set_slit_acceptance (c : Calc) (value : List ℚ) : Calc × Option String :=
  if c.output_type ≠ Output.flux then
    (c, some "Slit acceptance can only be defined if the output type is flux.")
  else
    ({ c with slit_acceptance := some value }, Option.none)

/-- Setter `slit_shape`: requires the output type `flux`; the stored
value may be a shape tag or Python `None`. -/
def set_slit_shape (c : Calc) (value : Option SlitShape) : Calc × Option String :=
  if c.output_type ≠ Output.flux then
    (c, some "Slit shape can only be defined if the output type is flux.")
  else
    ({ c with slit_shape := value }, Option.none)

/-- Setter `target_energy`: requires the independent variable `mesh_xy`. -/
def set_target_energy (c : Calc) (value : ℚ) : Calc × Option String :=
  if c.indep_var ≠ Variable.mesh_xy then
    (c, some "Target energy can only be defined if the variable is a xy mesh.")
  else
    ({ c with target_energy := some value }, Option.none)

/-- Setter `x_range`: requires the independent variable `mesh_xy`. -/
def set_x_range (c : Calc) (value : List ℚ) : Calc × Option String :=
  if c.indep_var ≠ Variable.mesh_xy then
    (c, some "X range can only be defined if the variable is a xy mesh.")
  else
    ({ c with x_range := some value }, Option.none)

/-- Setter `y_range`: requires the independent variable `mesh_xy`. -/
def set_y_range (c : Calc) (value : List ℚ) : Calc × Option String :=
  if c.indep_var ≠ Variable.mesh_xy then
    (c, some "Y range can only be defined if the variable is a xy mesh.")
  else
    ({ c with y_range := some value }, Option.none)

/-- Setter `x_nr_pts`: requires the independent variable `mesh_xy`. -/
def set_x_nr_pts (c : Calc) (value : ℚ) : Calc × Option String :=
  if c.indep_var ≠ Variable.mesh_xy then
    (c, some "X range can only be defined if the variable is a xy mesh.")
  else
    ({ c with x_nr_pts := some value }, Option.none)

/-- Setter `y_nr_pts`: requires the independent variable `mesh_xy`. -/
def set_y_nr_pts (c : Calc) (value : ℚ) : Calc × Option String :=
  if c.indep_var ≠ Variable.mesh_xy then
    (c, some "Y range can only be defined if the variable is a xy mesh.")
  else
    ({ c with y_nr_pts := some value }, Option.none)

/-- Setter `harmonic_range`: requires the independent variable `k`. -/
def set_harmonic_range (c : Calc) (value : List ℚ) : Calc × Option String :=
  if c.indep_var ≠ Variable.k then
    (c, some "Harmonic range can only be defined if the variable is k.")
  else
    ({ c with harmonic_range := some value }, Option.none)

/-- Setter `k_range`: requires the independent variable `k`. -/
def set_k_range (c : Calc) (value : List ℚ) : Calc × Option String :=
  if c.indep_var ≠ Variable.k then
    (c, some "K range can only be defined if the variable is k.")
  else
    ({ c with k_range := some value }, Option.none)

/-- Setter `k_nr_pts`: requires the independent variable `k`. -/
def set_k_nr_pts (c : Calc) (value : ℚ) : Calc × Option String :=
  if c.indep_var ≠ Variable.k then
    (c, some "K nr points can only be defined if the variable is k.")
  else
    ({ c with k_nr_pts := some value }, Option.none)

/-- Setter `slice_x`: requires the independent variable `k`. -/
def set_slice_x (c : Calc) (value : ℚ) : Calc × Option String :=
  if c.indep_var ≠ Variable.k then
    (c, some "Slice x can only be defined if the variable is k.")
  else
    ({ c with slice_x := some value }, Option.none)

/-- Setter `slice_y`: requires the independent variable `k`. -/
def set_slice_y (c : Calc) (value : ℚ) : Calc × Option String :=
  if c.indep_var ≠ Variable.k then
    (c, some "Slice y can only be defined if the variable is k.")
  else
    ({ c with slice_y := some value }, Option.none)

/-- Setter `slice_px`: requires the independent variable `k`. -/
def set_slice_px (c : Calc) (value : ℚ) : Calc × Option String :=
  if c.indep_var ≠ Variable.k then
    (c, some "Slice px can only be defined if the variable is k.")
  else
    ({ c with slice_px := some value }, Option.none)

/-- Setter `slice_py`: requires the independent variable `k`. -/
def set_slice_py (c : Calc) (value : ℚ) : Calc × Option String :=
  if c.indep_var ≠ Variable.k then
    (c, some "Slice py can only be defined if the variable is k.")
  else
    ({ c with slice_py := some value }, Option.none)

/-- Setter `add_phase_error`: requires the near-field method. -/
def set_add_phase_error (c : Calc) (value : Bool) : Calc × Option String :=
  if c.method ≠ Method.near_field then
    (c, some "Phase error can only be defined if the method of calculation is near field")
  else
    ({ c with add_phase_error := some value }, Option.none)

/-- Setter `random_seed`: requires `add_phase_error` to be `True`. -/
def set_random_seed (c : Calc) (value : ℚ) : Calc × Option String :=
  if c.add_phase_error ≠ some true then
    (c, some "Phase error parameters can only be defined if add_phase_error is True")
  else
    ({ c with random_seed := some value }, Option.none)

/-- Setter `rms_peak_field_var`: requires `add_phase_error` to be `True`. -/
def set_rms_peak_field_var (c : Calc) (value : ℚ) : Calc × Option String :=
  if c.add_phase_error ≠ some true then
    (c, some "Phase error parameters can only be defined if add_phase_error is True")
  else
    ({ c with rms_peak_field_var := some value }, Option.none)

/-- Setter `rms_phase_error`: requires `add_phase_error` to be `True`. -/
def set_rms_phase_error (c : Calc) (value : ℚ) : Calc × Option String :=
  if c.add_phase_error ≠ some true then
    (c, some "Phase error parameters can only be defined if add_phase_error is True")
  else
    ({ c with rms_phase_error := some value }, Option.none)

/-- Setter `rms_trajectory_error`: requires `add_phase_error` to be
`True`; stores into `rms_traj_error`. -/
def set_rms_trajectory_error (c : Calc) (value : List ℚ) : Calc × Option String :=
  if c.add_phase_error ≠ some true then
    (c, some "Phase error parameters can only be defined if add_phase_error is True")
  else
    ({ c with rms_traj_error := some value }, Option.none)

/-- First failing check of the `indep_var == energy` block of
`verify_valid_parameters`, if any. -/
def energyCheckErr (c : Calc) : Option String :=
  if c.indep_var = Variable.energy then
    if c.energy_range = Option.none then some "Energy range must be defined."
    else if c.energy_step = Option.none then some "Energy step must be defined."
    else if c.slit_position = Option.none then some "Observation angle must be defined."
    else if c.output_type = Output.flux then
      if c.slit_acceptance = Option.none then some "Slit acceptance must be defined."
      else if c.slit_shape = Option.none then some "Slit shape must be defined."
      else Option.none
    else Option.none
  else Option.none

/-- First failing check of the `indep_var == mesh_xy` block of
`verify_valid_parameters`, if any. -/
def meshCheckErr (c : Calc) : Option String :=
  if c.indep_var = Variable.mesh_xy then
    if c.target_energy = Option.none then some "Energy target must be defined"
    else if c.x_range = Option.none then some "X range must be defined."
    else if c.y_range = Option.none then some "Y range must be defined."
    else if c.x_nr_pts = Option.none then some "Nr. of x points must be defined."
    else if c.y_nr_pts = Option.none then some "Nr. of y points must be defined."
    else Option.none
  else Option.none

/-- First failing check of the `indep_var == k` block of
`verify_valid_parameters`, if any. -/
def kCheckErr (c : Calc) : Option String :=
  if c.indep_var = Variable.k then
    if c.harmonic_range = Option.none then some "Harmonic range must be defined."
    else if c.k_range = Option.none then some "K range must be defined."
    else if c.k_nr_pts = Option.none then some "Number of K points must be defined."
    else if c.slice_x = Option.none then some "Slice x must be defined."
    else if c.slice_y = Option.none then some "Slice y must be defined."
    else if c.slice_px = Option.none then some "Slice px must be defined."
    else if c.slice_py = Option.none then some "Slice py must be defined."
    else Option.none
  else Option.none

/-- `Calc.verify_valid_parameters`: runs the three guarded blocks in
source order, raising the first failing check and returning `True` when
all checks pass. -/
def verify_valid_parameters (c : Calc) : Except String Bool :=
  match energyCheckErr c with
  | some e => Except.error e
  | Option.none =>
    match meshCheckErr c with
    | some e => Except.error e
    | Option.none =>
      match kCheckErr c with
      | some e => Except.error e
      | Option.none => Except.ok true

/-- JSON-like values written into the solver input document. -/
inductive Val where
  | num (q : ℚ)
  | str (s : String)
  | bool (b : Bool)
  | listq (l : List ℚ)
  | table (t : List (List ℚ))
  | null
deriving DecidableEq

/-- Python `None`-or-number attribute rendered as a JSON value. -/
def qVal : Option ℚ → Val
  | Option.none => Val.null
  | some q => Val.num q

/-- Python `None`-or-list attribute rendered as a JSON value. -/
def lVal : Option (List ℚ) → Val
  | Option.none => Val.null
  | some l => Val.listq l

/-- A JSON object section, with later writes shadowing earlier keys. -/
def Section := List (String × Val)

instance : DecidableEq Section := by
  unfold Section
  infer_instance

/-- Dictionary assignment `section[key] = v`. -/
def setKey (l : Section) (k : String) (v : Val) : Section := (k, v) :: l

/-- Dictionary read `section[key]` (the most recent write wins, as for a
Python dict). -/
def lookupKey : Section → String → Option Val
  | [], _ => Option.none
  | (k, v) :: rest, key => if k = key then some v else lookupKey rest key

/-- The sections of a loaded spectra input template that the wrapper
writes into: `Accelerator`, `Accelerator.Options`, `Light Source`,
`Light Source."Field Profile"` and `Configurations`. -/
structure Template where
  accelerator : Section := []
  accelerator_options : Section := []
  light_source : Section := []
  field_profile : Section := []
  configurations : Section := []
deriving DecidableEq

/-- Attribute record for the accelerator object exactly as read by
`SpectraTools._set_accelerator_config` (the `StorageRingParameters`
class itself lives in the `accelerator` module). -/
structure StorageRingParameters where
  energy : ℚ
  current : ℚ
  sigmaz : ℚ
  nat_emittance : ℚ
  coupling_constant : ℚ
  energy_spread : ℚ
  betax : ℚ
  betay : ℚ
  alphax : ℚ
  alphay : ℚ
  etax : ℚ
  etay : ℚ
  etapx : ℚ
  etapy : ℚ
  injection_condition : String
  zero_emittance : Bool
  zero_energy_spread : Bool
deriving DecidableEq

/-- `SpectraTools._set_accelerator_config`: copies the accelerator
attributes into the `Accelerator` section of the template. -/
def set_accelerator_config (acc : StorageRingParameters) (t : Template) :
    Template :=
  let a := t.accelerator
  let a := setKey a "Energy (GeV)" (Val.num acc.energy)
  let a := setKey a "Current (mA)" (Val.num acc.current)
  let a := setKey a "&sigma;<sub>z</sub> (mm)" (Val.num acc.sigmaz)
  let a := setKey a "Nat. Emittance (m.rad)" (Val.num acc.nat_emittance)
  let a := setKey a "Coupling Constant" (Val.num acc.coupling_constant)
  let a := setKey a "Energy Spread" (Val.num acc.energy_spread)
  let a := setKey a "&beta;<sub>x,y</sub> (m)" (Val.listq [acc.betax, acc.betay])
  let a := setKey a "&alpha;<sub>x,y</sub>" (Val.listq [acc.alphax, acc.alphay])
  let a := setKey a "&eta;<sub>x,y</sub> (m)" (Val.listq [acc.etax, acc.etay])
  let a := setKey a "&eta;\x27<sub>x,y</sub>" (Val.listq [acc.etapx, acc.etapy])
  let o := t.accelerator_options
  let o := setKey o "Injection Condition" (Val.str acc.injection_condition)
  let o := setKey o "Zero Emittance" (Val.bool acc.zero_emittance)
  let o := setKey o "Zero Energy Spread" (Val.bool acc.zero_energy_spread)
  { t with accelerator := a, accelerator_options := o }

/-- The 3×n `data` array built by `set_config` from a user field table:
rows are the z, by and bx columns. -/
def fieldData (f : FieldTable) : List (List ℚ) :=
  [f.map (fun r => r.1), f.map (fun r => r.2.1), f.map (fun r => r.2.2)]

/-- Light-source writes of `set_config` (field profile, K values, period
and device length), in source order. -/
def writeLightSource (c : Calc) (t : Template) : Template :=
  let t := match c.field with
    | some f => { t with field_profile := setKey t.field_profile "data" (Val.table (fieldData f)) }
    | Option.none => t
  let t := match c.ky with
    | some kyv =>
      if c.source_type = SourceType.horizontal_undulator
          ∨ c.source_type = SourceType.helical_undulator then
        { t with light_source := setKey t.light_source "K value" (Val.num kyv) }
      else t
    | Option.none => t
  let t := match c.kx with
    | some kxv =>
      if c.source_type = SourceType.vertical_undulator then
        { t with light_source := setKey t.light_source "K value" (Val.num kxv) }
      else t
    | Option.none => t
  let t := match c.kx, c.ky with
    | some kxv, some kyv =>
      if c.source_type = SourceType.elliptic_undulator
          ∨ c.source_type = SourceType.figure8_undulator
          ∨ c.source_type = SourceType.vertical_figure8_undulator then
        { t with light_source := setKey t.light_source "K<sub>x,y</sub>" (Val.listq [kxv, kyv]) }
      else t
    | _, _ => t
  let t := match c.period with
    | some p => { t with light_source := setKey t.light_source "&lambda;<sub>u</sub> (mm)" (Val.num p) }
    | Option.none => t
  match c.id_length with
  | some l => { t with light_source := setKey t.light_source "Device Length (m)" (Val.num l) }
  | Option.none => t

/-- `Configurations` write for `energy_range`. -/
def writeEnergyRange (c : Calc) (l : Section) : Section :=
  match c.energy_range with
  | some v => setKey l "Energy Range (eV)" (Val.listq v)
  | Option.none => l

/-- `Configurations` write for `energy_step`. -/
def writeEnergyStep (c : Calc) (l : Section) : Section :=
  match c.energy_step with
  | some v => setKey l "Energy Pitch (eV)" (Val.num v)
  | Option.none => l

/-- `Configurations` write for `observation_angle` (`slit_position`): the
key depends on the output type, and nothing is written for the
brilliance output. -/
def writeObservationAngle (c : Calc) (l : Section) : Section :=
  match c.slit_position with
  | some v =>
    if c.output_type = Output.flux_density then
      setKey l "Angle &theta;<sub>x,y</sub> (mrad)" (Val.listq v)
    else if c.output_type = Output.flux then
      setKey l "Slit Pos.: &theta;<sub>x,y</sub> (mrad)" (Val.listq v)
    else l
  | Option.none => l

/-- `Configurations` write for `slit_acceptance`: the key depends on the
slit shape (`sh` is the shape tag held by `slit_shape`). -/
def writeSlitAcceptance (c : Calc) (sh : SlitShape) (l : Section) : Section :=
  match c.slit_acceptance with
  | some v =>
    if sh = SlitShape.circular then
      setKey l "Slit &theta;<sub>1,2</sub> (mrad)" (Val.listq v)
    else if sh = SlitShape.rectangular then
      setKey l "&Delta;&theta;<sub>x,y</sub> (mrad)" (Val.listq v)
    else l
  | Option.none => l

/-- `Configurations` write for `target_energy`. -/
def writeTargetEnergy (c : Calc) (l : Section) : Section :=
  match c.target_energy with
  | some v => setKey l "Target Energy (eV)" (Val.num v)
  | Option.none => l

/-- `Configurations` writes guarded by `x_range`: the y range and the
point counts are written (possibly as `None`) whenever `x_range` is
defined. -/
def writeMeshXY (c : Calc) (l : Section) : Section :=
  match c.x_range with
  | some xr =>
    let l := setKey l "&theta;<sub>x</sub> Range (mrad)" (Val.listq xr)
    let l := setKey l "&theta;<sub>y</sub> Range (mrad)" (lVal c.y_range)
    let l := setKey l "Points (x)" (qVal c.x_nr_pts)
    setKey l "Points (y)" (qVal c.y_nr_pts)
  | Option.none => l

/-- `Configurations` writes guarded by `harmonic_range`: the K range,
point count and slices are written (possibly as `None`) whenever
`harmonic_range` is defined. -/
def writeHarmonics (c : Calc) (l : Section) : Section :=
  match c.harmonic_range with
  | some hr =>
    let l := setKey l "Harmonic Range" (Val.listq hr)
    let l := setKey l "K Range" (lVal c.k_range)
    let l := setKey l "Points (K)" (qVal c.k_nr_pts)
    let l := setKey l "Slice X (mm)" (qVal c.slice_x)
    let l := setKey l "Slice Y (mm)" (qVal c.slice_y)
    let l := setKey l "Slice X\x27 (mrad)" (qVal c.slice_px)
    setKey l "Slice Y\x27 (mrad)" (qVal c.slice_py)
  | Option.none => l

/-- The template-file name built by `set_config` once the slit shape tag
`sh` is known: the mode tags joined by underscores, with the slit shape
appended only when its string is non-empty. -/
def configFileName (repos_path : String) (c : Calc) (sh : SlitShape) : String :=
  let base := repos_path ++ "/calculation_parameters/"
      ++ sourceTypeStr c.source_type ++ "_" ++ methodStr c.method ++ "_"
      ++ variableStr c.indep_var ++ "_" ++ outputStr c.output_type
  let base := if slitShapeStr sh = "" then base
    else base ++ "_" ++ slitShapeStr sh
  base ++ ".json"

/-- The document written by `Calc.set_config` once the slit shape tag
`sh` is known: the accelerator configuration, the light-source writes and
the `Configurations` writes, in source order, ending with the
unconditional write of `distance_from_source`. -/
def configDoc (acc : StorageRingParameters) (t : Template) (c : Calc)
    (sh : SlitShape) : Template :=
  let t2 := writeLightSource c (set_accelerator_config acc t)
  let conf := setKey
    (writeHarmonics c (writeMeshXY c (writeTargetEnergy c
      (writeSlitAcceptance c sh (writeObservationAngle c
        (writeEnergyStep c (writeEnergyRange c t2.configurations)))))))
    "Distance from the Source (m)" (Val.num c.distance_from_source)
  { t2 with configurations := conf }

/-- `Calc.set_config`: builds the template-file name and writes every
defined parameter into the loaded template `t`.  The result is `None`
exactly when `slit_shape` holds Python `None`, in which case the source
raises a `TypeError` while appending it to the file name. -/
def set_config (repos_path : String) (acc : StorageRingParameters)
    (t : Template) (c : Calc) : Option (String × Template) :=
  match c.slit_shape with
  | Option.none => Option.none
  | some sh => some (configFileName repos_path c sh, configDoc acc t c sh)

/-- A solver output array as held by the output attributes of `Calc`:
either a flat numpy vector or a reshaped 2-D matrix. -/
inductive OutArr where
  | vec (v : List ℚ)
  | mat (m : List (List ℚ))
deriving DecidableEq

/-- Output attributes of `Calc` filled by `_set_outputs`. -/
structure Outputs where
  flux : Option OutArr := Option.none
  brilliance : Option OutArr := Option.none
  pl : Option OutArr := Option.none
  pc : Option OutArr := Option.none
  pl45 : Option OutArr := Option.none
  energies : Option (List ℚ) := Option.none
  x : Option (List ℚ) := Option.none
  y : Option (List ℚ) := Option.none
deriving DecidableEq

/-- Row `i` of a 2-D solver array. -/
def row (data : List (List ℚ)) (i : ℕ) : List ℚ := data.getD i []

/-- `numpy.reshape` of a flat vector to an `a × b` matrix: row `i` holds
the entries `i*b, …, i*b + b - 1`. -/
def reshape2 (a b : ℕ) (v : List ℚ) : List (List ℚ) :=
  (List.range a).map (fun i => (v.drop (i * b)).take b)

/-- `numpy.flip(·, axis=0)`: reverses the row order. -/
def flip0 (m : List (List ℚ)) : List (List ℚ) := m.reverse

/-- `Calc._set_outputs`: distributes the solver data rows over the output
attributes according to the independent variable and the number of
caption titles, reshaping and flipping the four arrays for an xy mesh. -/
def set_outputs (var : Variable) (titles : List String)
    (data : List (List ℚ)) (vars : List (List ℚ)) (o : Outputs) : Outputs :=
  let o := { o with flux := some (OutArr.vec (row data 0)) }
  match var with
  | Variable.energy =>
    let o :=
      if titles.length = 5 then
        { o with pl := some (OutArr.vec (row data 1)),
                 pc := some (OutArr.vec (row data 2)),
                 pl45 := some (OutArr.vec (row data 3)) }
      else if titles.length = 6 then
        { o with brilliance := some (OutArr.vec (row data 1)),
                 pl := some (OutArr.vec (row data 2)),
                 pc := some (OutArr.vec (row data 3)),
                 pl45 := some (OutArr.vec (row data 4)) }
      else o
    { o with energies := some (row vars 0) }
  | Variable.mesh_xy =>
    let xs := row vars 0
    let ys := row vars 1
    { o with
      pl := some (OutArr.mat (flip0 (reshape2 xs.length ys.length (row data 1)))),
      pc := some (OutArr.mat (flip0 (reshape2 xs.length ys.length (row data 2)))),
      pl45 := some (OutArr.mat (flip0 (reshape2 xs.length ys.length (row data 3)))),
      x := some xs,
      y := some ys,
      flux := some (OutArr.mat (flip0 (reshape2 xs.length ys.length (row data 0)))) }
  | Variable.k => o

/-- Runs an inherited `GeneralConfigs` setter on the `GeneralConfigs`
part of a `Calc` object. -/
def liftGC (f : GeneralConfigs → GeneralConfigs × Option String)
    (c : Calc) : Calc × Option String :=
  ({ c with toGeneralConfigs := (f c.toGeneralConfigs).1 },
   (f c.toGeneralConfigs).2)

/-- One property-setter invocation, over all setters of `GeneralConfigs`
and `Calc`, with its argument. -/
inductive SetterCall where
  | source_type (v : SourceType)
  | distance_from_source (v : ℚ)
  | field (v : FieldTable)
  | period (v : ℚ)
  | by_peak (v : ℚ)
  | bx_peak (v : ℚ)
  | ky (v : ℚ)
  | kx (v : ℚ)
  | id_length (v : ℚ)
  | method (v : Method)
  | indep_var (v : Variable)
  | output_type (v : Output)
  | energy_range (v : List ℚ)
  | energy_step (v : ℚ)
  | observation_angle (v : List ℚ)
  | slit_acceptance (v : List ℚ)
  | slit_shape (v : Option SlitShape)
  | target_energy (v : ℚ)
  | x_range (v : List ℚ)
  | y_range (v : List ℚ)
  | x_nr_pts (v : ℚ)
  | y_nr_pts (v : ℚ)
  | harmonic_range (v : List ℚ)
  | k_range (v : List ℚ)
  | k_nr_pts (v : ℚ)
  | slice_x (v : ℚ)
  | slice_y (v : ℚ)
  | slice_px (v : ℚ)
  | slice_py (v : ℚ)
  | add_phase_error (v : Bool)
  | random_seed (v : ℚ)
  | rms_peak_field_var (v : ℚ)
  | rms_phase_error (v : ℚ)
  | rms_trajectory_error (v : List ℚ)

/-- Runs one property setter on a `Calc` object. -/
def applySetter (emc : ℚ) (call : SetterCall) (c : Calc) :
    Calc × Option String :=
  match call with
  | .source_type v => liftGC (fun g => set_source_type g v) c
  | .distance_from_source v => liftGC (fun g => set_distance_from_source g v) c
  | .field v => liftGC (fun g => set_field g v) c
  | .period v => liftGC (fun g => set_period emc g v) c
  | .by_peak v => liftGC (fun g => set_by_peak emc g v) c
  | .bx_peak v => liftGC (fun g => set_bx_peak emc g v) c
  | .ky v => liftGC (fun g => set_ky emc g v) c
  | .kx v => liftGC (fun g => set_kx emc g v) c
  | .id_length v => liftGC (fun g => set_id_length g v) c
  | .method v => set_method c v
  | .indep_var v => set_indep_var c v
  | .output_type v => set_output_type c v
  | .energy_range v => set_energy_range c v
  | .energy_step v => set_energy_step c v
  | .observation_angle v => set_observation_angle c v
  | .slit_acceptance v => set_slit_acceptance c v
  | .slit_shape v => set_slit_shape c v
  | .target_energy v => set_target_energy c v
  | .x_range v => set_x_range c v
  | .y_range v => set_y_range c v
  | .x_nr_pts v => set_x_nr_pts c v
  | .y_nr_pts v => set_y_nr_pts c v
  | .harmonic_range v => set_harmonic_range c v
  | .k_range v => set_k_range c v
  | .k_nr_pts v => set_k_nr_pts c v
  | .slice_x v => set_slice_x c v
  | .slice_y v => set_slice_y c v
  | .slice_px v => set_slice_px c v
  | .slice_py v => set_slice_py c v
  | .add_phase_error v => set_add_phase_error c v
  | .random_seed v => set_random_seed c v
  | .rms_peak_field_var v => set_rms_peak_field_var c v
  | .rms_phase_error v => set_rms_phase_error c v
  | .rms_trajectory_error v => set_rms_trajectory_error c v

/-- A peak-field assignment (`bx_peak := v` or `by_peak := v`), used to
state commutation of the period setter with the peak-field setters. -/
inductive PeakOp where
  | bxp (v : ℚ)
  | byp (v : ℚ)

/-- Runs one peak-field assignment (keeping the resulting state). -/
def applyPeak (emc : ℚ) (op : PeakOp) (s : GeneralConfigs) : GeneralConfigs :=
  match op with
  | .bxp v => (set_bx_peak emc s v).1
  | .byp v => (set_by_peak emc s v).1

/-- Runs a sequence of peak-field assignments. -/
def applyPeaks (emc : ℚ) (ops : List PeakOp) (s : GeneralConfigs) :
    GeneralConfigs :=
  ops.foldl (fun s op => applyPeak emc op s) s

/-- A peak-field assignment is legitimate for a source type when the
corresponding setter does not raise. -/
def legitPeak (st : SourceType) : PeakOp → Prop
  | .bxp _ => st ≠ SourceType.horizontal_undulator
  | .byp _ => st ≠ SourceType.vertical_undulator

/-- The `bx_peak` value after a sequence of peak assignments starting
from `b`. -/
def bxAfter (ops : List PeakOp) (b : Option ℚ) : Option ℚ :=
  ops.foldl (fun acc op => match op with
    | .bxp v => some v
    | .byp _ => acc) b

/-- The `by_peak` value after a sequence of peak assignments starting
from `b`. -/
def byAfter (ops : List PeakOp) (b : Option ℚ) : Option ℚ :=
  ops.foldl (fun acc op => match op with
    | .byp v => some v
    | .bxp _ => acc) b

/-- The value of the last peak assignment of a sequence, starting
from `b` (for a helical undulator both peaks track this value). -/
def lastPeak (ops : List PeakOp) (b : Option ℚ) : Option ℚ :=
  ops.foldl (fun _ op => match op with
    | .bxp v => some v
    | .byp v => some v) b

lemma updKxFromBx_eq (emc p : ℚ) (s : GeneralConfigs) :
    updKxFromBx emc p s
      = { s with kx := match s.bx_peak with
            | some bx => some (1 / 1000 * emc * bx * p)
            | Option.none => s.kx } := by
  obtain ⟨d, st, f, bx, byv, p0, kxv, kyv, il⟩ := s
  cases bx <;> rfl

lemma updKyFromBy_eq (emc p : ℚ) (s : GeneralConfigs) :
    updKyFromBy emc p s
      = { s with ky := match s.by_peak with
            | some byv => some (1 / 1000 * emc * byv * p)
            | Option.none => s.ky } := by
  obtain ⟨d, st, f, bx, byv, p0, kxv, kyv, il⟩ := s
  cases byv <;> rfl

lemma updBxFromKx_eq (emc p : ℚ) (s : GeneralConfigs) :
    updBxFromKx emc p s
      = { s with bx_peak := match s.kx with
            | some kxv => some (kxv / (emc * (1 / 1000) * p))
            | Option.none => s.bx_peak } := by
  obtain ⟨d, st, f, bx, byv, p0, kxv, kyv, il⟩ := s
  cases kxv <;> rfl

lemma updByFromKy_eq (emc p : ℚ) (s : GeneralConfigs) :
    updByFromKy emc p s
      = { s with by_peak := match s.ky with
            | some kyv => some (kyv / (emc * (1 / 1000) * p))
            | Option.none => s.by_peak } := by
  obtain ⟨d, st, f, bx, byv, p0, kxv, kyv, il⟩ := s
  cases kyv <;> rfl

lemma byDeriveKy_eq (emc value : ℚ) (s : GeneralConfigs) :
    byDeriveKy emc value s
      = { s with ky := match s.period with
            | some p => some
                (if s.source_type = SourceType.vertical_figure8_undulator then
                  1 / 1000 * emc * value * p * 2
                else 1 / 1000 * emc * value * p)
            | Option.none => s.ky } := by
  obtain ⟨d, st, f, bx, byv, p0, kxv, kyv, il⟩ := s
  cases p0 <;> rfl

lemma byHelical_eq (value : ℚ) (s : GeneralConfigs) :
    byHelical value s
      = if s.source_type = SourceType.helical_undulator then
          { s with bx_peak := some value,
                   kx := match s.period with
                     | some _ => s.ky
                     | Option.none => s.kx }
        else s := by
  obtain ⟨d, st, f, bx, byv, p0, kxv, kyv, il⟩ := s
  cases p0 <;> rfl

lemma bxDeriveKx_eq (emc value : ℚ) (s : GeneralConfigs) :
    bxDeriveKx emc value s
      = { s with kx := match s.period with
            | some p => some
                (if s.source_type = SourceType.figure8_undulator then
                  1 / 1000 * emc * value * p * 2
                else 1 / 1000 * emc * value * p)
            | Option.none => s.kx } := by
  obtain ⟨d, st, f, bx, byv, p0, kxv, kyv, il⟩ := s
  cases p0 <;> rfl

lemma bxHelical_eq (value : ℚ) (s : GeneralConfigs) :
    bxHelical value s
      = if s.source_type = SourceType.helical_undulator then
          { s with by_peak := some value,
                   ky := match s.period with
                     | some _ => s.kx
                     | Option.none => s.ky }
        else s := by
  obtain ⟨d, st, f, bx, byv, p0, kxv, kyv, il⟩ := s
  cases p0 <;> rfl

lemma kyDeriveBy_eq (emc value : ℚ) (s : GeneralConfigs) :
    kyDeriveBy emc value s
      = { s with by_peak := match s.period with
            | some p => some
                (if s.source_type = SourceType.vertical_figure8_undulator then
                  value / (emc * (1 / 1000) * p) / 2
                else value / (emc * (1 / 1000) * p))
            | Option.none => s.by_peak } := by
  obtain ⟨d, st, f, bx, byv, p0, kxv, kyv, il⟩ := s
  cases p0 <;> rfl

lemma kyHelical_eq (value : ℚ) (s : GeneralConfigs) :
    kyHelical value s
      = if s.source_type = SourceType.helical_undulator then
          { s with kx := some value }
        else s := by
  obtain ⟨d, st, f, bx, byv, p0, kxv, kyv, il⟩ := s
  cases p0 <;> rfl

lemma kxDeriveBx_eq (emc value : ℚ) (s : GeneralConfigs) :
    kxDeriveBx emc value s
      = { s with bx_peak := match s.period with
            | some p => some
                (if s.source_type = SourceType.figure8_undulator then
                  value / (emc * (1 / 1000) * p) / 2
                else value / (emc * (1 / 1000) * p))
            | Option.none => s.bx_peak } := by
  obtain ⟨d, st, f, bx, byv, p0, kxv, kyv, il⟩ := s
  cases p0 <;> rfl

lemma kxHelical_eq (value : ℚ) (s : GeneralConfigs) :
    kxHelical value s
      = if s.source_type = SourceType.helical_undulator then
          { s with kx := some value }
        else s := by
  obtain ⟨d, st, f, bx, byv, p0, kxv, kyv, il⟩ := s
  cases p0 <;> rfl

lemma set_field_err_iff (s : GeneralConfigs) (tbl : FieldTable) :
    (set_field s tbl).2.isSome ↔ s.source_type ≠ SourceType.user_defined := by
  cases h : s.source_type <;> simp [set_field, h]

lemma set_field_store (s : GeneralConfigs) (tbl : FieldTable)
    (h : (set_field s tbl).2 = Option.none) :
    (set_field s tbl).1 = { s with field := some tbl } := by
  cases hs : s.source_type <;> simp_all [set_field]

lemma set_period_err_iff (emc : ℚ) (s : GeneralConfigs) (v : ℚ) :
    (set_period emc s v).2.isSome ↔ s.source_type = SourceType.user_defined := by
  cases h : s.source_type <;> simp [set_period, h]

lemma set_period_store (emc : ℚ) (s : GeneralConfigs) (v : ℚ)
    (h : (set_period emc s v).2 = Option.none) :
    (set_period emc s v).1.period = some v := by
  cases h : s.source_type <;>
    simp_all [set_period, updKxFromBx_eq, updKyFromBy_eq, updBxFromKx_eq,
      updByFromKy_eq]

lemma set_id_length_err_iff (s : GeneralConfigs) (v : ℚ) :
    (set_id_length s v).2.isSome ↔ s.source_type = SourceType.user_defined := by
  cases h : s.source_type <;> simp [set_id_length, h]

lemma set_id_length_store (s : GeneralConfigs) (v : ℚ)
    (h : (set_id_length s v).2 = Option.none) :
    (set_id_length s v).1 = { s with id_length := some v } := by
  cases hs : s.source_type <;> simp_all [set_id_length]

lemma set_by_peak_err_iff (emc : ℚ) (s : GeneralConfigs) (v : ℚ) :
    (set_by_peak emc s v).2.isSome ↔
      (s.source_type = SourceType.user_defined
        ∨ s.source_type = SourceType.vertical_undulator) := by
  cases h : s.source_type <;> simp [set_by_peak, h]

lemma set_by_peak_store (emc : ℚ) (s : GeneralConfigs) (v : ℚ)
    (h : (set_by_peak emc s v).2 = Option.none) :
    (set_by_peak emc s v).1.by_peak = some v := by
  cases h : s.source_type <;>
    simp_all [set_by_peak, byDeriveKy_eq, byHelical_eq]

lemma set_ky_err_iff (emc : ℚ) (s : GeneralConfigs) (v : ℚ) :
    (set_ky emc s v).2.isSome ↔
      (s.source_type = SourceType.user_defined
        ∨ s.source_type = SourceType.vertical_undulator) := by
  cases h : s.source_type <;> simp [set_ky, h]

lemma set_ky_store (emc : ℚ) (s : GeneralConfigs) (v : ℚ)
    (h : (set_ky emc s v).2 = Option.none) :
    (set_ky emc s v).1.ky = some v := by
  cases h : s.source_type <;>
    simp_all [set_ky, kyDeriveBy_eq, kyHelical_eq]

lemma set_bx_peak_err_iff (emc : ℚ) (s : GeneralConfigs) (v : ℚ) :
    (set_bx_peak emc s v).2.isSome ↔
      (s.source_type = SourceType.user_defined
        ∨ s.source_type = SourceType.horizontal_undulator) := by
  cases h : s.source_type <;> simp [set_bx_peak, h]

lemma set_bx_peak_store (emc : ℚ) (s : GeneralConfigs) (v : ℚ)
    (h : (set_bx_peak emc s v).2 = Option.none) :
    (set_bx_peak emc s v).1.bx_peak = some v := by
  cases h : s.source_type <;>
    simp_all [set_bx_peak, bxDeriveKx_eq, bxHelical_eq]

lemma set_kx_err_iff (emc : ℚ) (s : GeneralConfigs) (v : ℚ) :
    (set_kx emc s v).2.isSome ↔
      (s.source_type = SourceType.user_defined
        ∨ s.source_type = SourceType.horizontal_undulator) := by
  cases h : s.source_type <;> simp [set_kx, h]

lemma set_kx_store (emc : ℚ) (s : GeneralConfigs) (v : ℚ)
    (h : (set_kx emc s v).2 = Option.none) :
    (set_kx emc s v).1.kx = some v := by
  cases h : s.source_type <;>
    simp_all [set_kx, kxDeriveBx_eq, kxHelical_eq]

/-- C1: a `GeneralConfigs` (or `Calc`) assignment to `field` raises
exactly when the source type is not `user_defined`; to `period` or
`id_length` exactly when it is `user_defined`; to `by_peak` or `ky`
exactly when it is `user_defined` or `vertical_undulator`; to `bx_peak`
or `kx` exactly when it is `user_defined` or `horizontal_undulator`; in
every other case the assignment succeeds and stores the value. -/
theorem general_setter_validation (emc : ℚ) (s : GeneralConfigs)
    (tbl : FieldTable) (v : ℚ) :
    ((set_field s tbl).2.isSome ↔ s.source_type ≠ SourceType.user_defined)
    ∧ ((set_field s tbl).2 = Option.none →
        (set_field s tbl).1 = { s with field := some tbl })
    ∧ ((set_period emc s v).2.isSome ↔ s.source_type = SourceType.user_defined)
    ∧ ((set_period emc s v).2 = Option.none →
        (set_period emc s v).1.period = some v)
    ∧ ((set_id_length s v).2.isSome ↔ s.source_type = SourceType.user_defined)
    ∧ ((set_id_length s v).2 = Option.none →
        (set_id_length s v).1 = { s with id_length := some v })
    ∧ ((set_by_peak emc s v).2.isSome ↔
        (s.source_type = SourceType.user_defined
          ∨ s.source_type = SourceType.vertical_undulator))
    ∧ ((set_by_peak emc s v).2 = Option.none →
        (set_by_peak emc s v).1.by_peak = some v)
    ∧ ((set_ky emc s v).2.isSome ↔
        (s.source_type = SourceType.user_defined
          ∨ s.source_type = SourceType.vertical_undulator))
    ∧ ((set_ky emc s v).2 = Option.none →
        (set_ky emc s v).1.ky = some v)
    ∧ ((set_bx_peak emc s v).2.isSome ↔
        (s.source_type = SourceType.user_defined
          ∨ s.source_type = SourceType.horizontal_undulator))
    ∧ ((set_bx_peak emc s v).2 = Option.none →
        (set_bx_peak emc s v).1.bx_peak = some v)
    ∧ ((set_kx emc s v).2.isSome ↔
        (s.source_type = SourceType.user_defined
          ∨ s.source_type = SourceType.horizontal_undulator))
    ∧ ((set_kx emc s v).2 = Option.none →
        (set_kx emc s v).1.kx = some v) :=
  ⟨set_field_err_iff s tbl, set_field_store s tbl,
   set_period_err_iff emc s v, set_period_store emc s v,
   set_id_length_err_iff s v, set_id_length_store s v,
   set_by_peak_err_iff emc s v, set_by_peak_store emc s v,
   set_ky_err_iff emc s v, set_ky_store emc s v,
   set_bx_peak_err_iff emc s v, set_bx_peak_store emc s v,
   set_kx_err_iff emc s v, set_kx_store emc s v⟩

/-- Witness for C1 at a concrete state: on a helical undulator the period
assignment succeeds and stores the value. -/
theorem general_setter_validation_check :
    (set_period 1 { initGeneralConfigs with
        source_type := SourceType.helical_undulator } 100).1.period
      = some (100 : ℚ) :=
  (general_setter_validation 1
      { initGeneralConfigs with source_type := SourceType.helical_undulator }
      [] 100).2.2.2.1 (by decide)

/-- C2: a `Calc` assignment to `energy_range`, `energy_step` or
`observation_angle` raises exactly when the independent variable is not
`energy`; to `target_energy`, `x_range`, `y_range`, `x_nr_pts` or
`y_nr_pts` exactly when it is not `mesh_xy`; to `harmonic_range`,
`k_range`, `k_nr_pts`, `slice_x`, `slice_y`, `slice_px` or `slice_py`
exactly when it is not `k`; to `slit_acceptance` or `slit_shape` exactly
when the output type is not `flux`; to `add_phase_error` exactly when the
method is not `near_field`; to `random_seed`, `rms_peak_field_var`,
`rms_phase_error` or `rms_trajectory_error` exactly when
`add_phase_error` is not `True`; otherwise the value is stored. -/
theorem calc_setter_validation (c : Calc) (v : ℚ) (l : List ℚ)
    (sh : Option SlitShape) (b : Bool) :
    ((set_energy_range c l).2.isSome ↔ c.indep_var ≠ Variable.energy)
    ∧ ((set_energy_range c l).2 = Option.none →
        (set_energy_range c l).1 = { c with energy_range := some l })
    ∧ ((set_energy_step c v).2.isSome ↔ c.indep_var ≠ Variable.energy)
    ∧ ((set_energy_step c v).2 = Option.none →
        (set_energy_step c v).1 = { c with energy_step := some v })
    ∧ ((set_observation_angle c l).2.isSome ↔ c.indep_var ≠ Variable.energy)
    ∧ ((set_observation_angle c l).2 = Option.none →
        (set_observation_angle c l).1 = { c with slit_position := some l })
    ∧ ((set_target_energy c v).2.isSome ↔ c.indep_var ≠ Variable.mesh_xy)
    ∧ ((set_target_energy c v).2 = Option.none →
        (set_target_energy c v).1 = { c with target_energy := some v })
    ∧ ((set_x_range c l).2.isSome ↔ c.indep_var ≠ Variable.mesh_xy)
    ∧ ((set_x_range c l).2 = Option.none →
        (set_x_range c l).1 = { c with x_range := some l })
    ∧ ((set_y_range c l).2.isSome ↔ c.indep_var ≠ Variable.mesh_xy)
    ∧ ((set_y_range c l).2 = Option.none →
        (set_y_range c l).1 = { c with y_range := some l })
    ∧ ((set_x_nr_pts c v).2.isSome ↔ c.indep_var ≠ Variable.mesh_xy)
    ∧ ((set_x_nr_pts c v).2 = Option.none →
        (set_x_nr_pts c v).1 = { c with x_nr_pts := some v })
    ∧ ((set_y_nr_pts c v).2.isSome ↔ c.indep_var ≠ Variable.mesh_xy)
    ∧ ((set_y_nr_pts c v).2 = Option.none →
        (set_y_nr_pts c v).1 = { c with y_nr_pts := some v })
    ∧ ((set_harmonic_range c l).2.isSome ↔ c.indep_var ≠ Variable.k)
    ∧ ((set_harmonic_range c l).2 = Option.none →
        (set_harmonic_range c l).1 = { c with harmonic_range := some l })
    ∧ ((set_k_range c l).2.isSome ↔ c.indep_var ≠ Variable.k)
    ∧ ((set_k_range c l).2 = Option.none →
        (set_k_range c l).1 = { c with k_range := some l })
    ∧ ((set_k_nr_pts c v).2.isSome ↔ c.indep_var ≠ Variable.k)
    ∧ ((set_k_nr_pts c v).2 = Option.none →
        (set_k_nr_pts c v).1 = { c with k_nr_pts := some v })
    ∧ ((set_slice_x c v).2.isSome ↔ c.indep_var ≠ Variable.k)
    ∧ ((set_slice_x c v).2 = Option.none →
        (set_slice_x c v).1 = { c with slice_x := some v })
    ∧ ((set_slice_y c v).2.isSome ↔ c.indep_var ≠ Variable.k)
    ∧ ((set_slice_y c v).2 = Option.none →
        (set_slice_y c v).1 = { c with slice_y := some v })
    ∧ ((set_slice_px c v).2.isSome ↔ c.indep_var ≠ Variable.k)
    ∧ ((set_slice_px c v).2 = Option.none →
        (set_slice_px c v).1 = { c with slice_px := some v })
    ∧ ((set_slice_py c v).2.isSome ↔ c.indep_var ≠ Variable.k)
    ∧ ((set_slice_py c v).2 = Option.none →
        (set_slice_py c v).1 = { c with slice_py := some v })
    ∧ ((set_slit_acceptance c l).2.isSome ↔ c.output_type ≠ Output.flux)
    ∧ ((set_slit_acceptance c l).2 = Option.none →
        (set_slit_acceptance c l).1 = { c with slit_acceptance := some l })
    ∧ ((set_slit_shape c sh).2.isSome ↔ c.output_type ≠ Output.flux)
    ∧ ((set_slit_shape c sh).2 = Option.none →
        (set_slit_shape c sh).1 = { c with slit_shape := sh })
    ∧ ((set_add_phase_error c b).2.isSome ↔ c.method ≠ Method.near_field)
    ∧ ((set_add_phase_error c b).2 = Option.none →
        (set_add_phase_error c b).1 = { c with add_phase_error := some b })
    ∧ ((set_random_seed c v).2.isSome ↔ c.add_phase_error ≠ some true)
    ∧ ((set_random_seed c v).2 = Option.none →
        (set_random_seed c v).1 = { c with random_seed := some v })
    ∧ ((set_rms_peak_field_var c v).2.isSome ↔ c.add_phase_error ≠ some true)
    ∧ ((set_rms_peak_field_var c v).2 = Option.none →
        (set_rms_peak_field_var c v).1 = { c with rms_peak_field_var := some v })
    ∧ ((set_rms_phase_error c v).2.isSome ↔ c.add_phase_error ≠ some true)
    ∧ ((set_rms_phase_error c v).2 = Option.none →
        (set_rms_phase_error c v).1 = { c with rms_phase_error := some v })
    ∧ ((set_rms_trajectory_error c l).2.isSome ↔ c.add_phase_error ≠ some true)
    ∧ ((set_rms_trajectory_error c l).2 = Option.none →
        (set_rms_trajectory_error c l).1 = { c with rms_traj_error := some l }) := by
  refine ⟨?_, ?_, ?_, ?_, ?_, ?_, ?_, ?_, ?_, ?_, ?_, ?_, ?_, ?_, ?_, ?_,
    ?_, ?_, ?_, ?_, ?_, ?_, ?_, ?_, ?_, ?_, ?_, ?_, ?_, ?_, ?_, ?_, ?_, ?_,
    ?_, ?_, ?_, ?_, ?_, ?_, ?_, ?_, ?_, ?_⟩ <;>
  first
  | ((cases h : c.indep_var <;>
      simp_all [set_energy_range, set_energy_step, set_observation_angle,
        set_target_energy, set_x_range, set_y_range, set_x_nr_pts,
        set_y_nr_pts, set_harmonic_range, set_k_range, set_k_nr_pts,
        set_slice_x, set_slice_y, set_slice_px, set_slice_py]); done)
  | ((cases h : c.output_type <;>
      simp_all [set_slit_acceptance, set_slit_shape]); done)
  | ((cases h : c.method <;> simp_all [set_add_phase_error]); done)
  | ((by_cases h : c.add_phase_error = some true <;>
      simp_all [set_random_seed, set_rms_peak_field_var,
        set_rms_phase_error, set_rms_trajectory_error]); done)

/-- Witness for C2 at a concrete state: on the initial `Calc` (energy
variable) the energy-range assignment succeeds and stores the value. -/
theorem calc_setter_validation_check :
    (set_energy_range initCalc [100, 200]).1
      = { initCalc with energy_range := some [100, 200] } :=
  (calc_setter_validation initCalc 0 [100, 200] (some SlitShape.none)
    false).2.1 (by decide)

/-- C3: with the period `p` already defined and the assignment legitimate
for the current source type, `by_peak := B` sets
`ky = 1e-3 * ECHARGE_MC * B * p` (doubled for a vertical figure-8
undulator) and `ky := K` sets `by_peak = K / (1e-3 * ECHARGE_MC * p)`
(halved for a vertical figure-8 undulator); symmetrically `bx_peak := B`
sets `kx` by the same formula (doubled for a figure-8 undulator) and
`kx := K` sets `bx_peak` by the inverse formula (halved for a figure-8
undulator). -/
theorem k_field_coupling_formulas (emc v p : ℚ) (s : GeneralConfigs)
    (hp : s.period = some p) :
    (s.source_type ≠ SourceType.user_defined →
      s.source_type ≠ SourceType.vertical_undulator →
      (set_by_peak emc s v).1.ky = some
        (if s.source_type = SourceType.vertical_figure8_undulator then
          1 / 1000 * emc * v * p * 2
        else 1 / 1000 * emc * v * p))
    ∧ (s.source_type ≠ SourceType.user_defined →
      s.source_type ≠ SourceType.vertical_undulator →
      (set_ky emc s v).1.by_peak = some
        (if s.source_type = SourceType.vertical_figure8_undulator then
          v / (emc * (1 / 1000) * p) / 2
        else v / (emc * (1 / 1000) * p)))
    ∧ (s.source_type ≠ SourceType.user_defined →
      s.source_type ≠ SourceType.horizontal_undulator →
      (set_bx_peak emc s v).1.kx = some
        (if s.source_type = SourceType.figure8_undulator then
          1 / 1000 * emc * v * p * 2
        else 1 / 1000 * emc * v * p))
    ∧ (s.source_type ≠ SourceType.user_defined →
      s.source_type ≠ SourceType.horizontal_undulator →
      (set_kx emc s v).1.bx_peak = some
        (if s.source_type = SourceType.figure8_undulator then
          v / (emc * (1 / 1000) * p) / 2
        else v / (emc * (1 / 1000) * p))) := by
  refine ⟨?_, ?_, ?_, ?_⟩ <;>
    (cases h : s.source_type <;>
      simp_all [set_by_peak, set_ky, set_bx_peak, set_kx,
        byDeriveKy_eq, byHelical_eq, kyDeriveBy_eq, kyHelical_eq,
        bxDeriveKx_eq, bxHelical_eq, kxDeriveBx_eq, kxHelical_eq])

/-- Witness for C3 at a concrete state: on an elliptic undulator with
period 100 and `ECHARGE_MC = 1`, assigning `by_peak := 2` yields
`ky = 1e-3 * 1 * 2 * 100 = 1/5`. -/
theorem k_field_coupling_formulas_check :
    (set_by_peak 1 { initGeneralConfigs with
        source_type := SourceType.elliptic_undulator,
        period := some 100 } 2).1.ky = some (1 / 5 : ℚ) := by
  have h := (k_field_coupling_formulas 1 2 100 { initGeneralConfigs with
      source_type := SourceType.elliptic_undulator, period := some 100 }
      rfl).1 (by decide) (by decide)
  norm_num at h
  exact h

lemma bxAfter_init (ops : List PeakOp) (b : Option ℚ) :
    bxAfter ops b = match bxAfter ops Option.none with
      | some w => some w
      | Option.none => b := by
  induction ops generalizing b with
  | nil => rfl
  | cons op ops ih =>
    cases op with
    | bxp v =>
      show bxAfter ops (some v) = match bxAfter ops (some v) with
        | some w => some w
        | Option.none => b
      rw [ih (some v)]
      cases bxAfter ops Option.none <;> rfl
    | byp v => exact ih b

lemma byAfter_init (ops : List PeakOp) (b : Option ℚ) :
    byAfter ops b = match byAfter ops Option.none with
      | some w => some w
      | Option.none => b := by
  induction ops generalizing b with
  | nil => rfl
  | cons op ops ih =>
    cases op with
    | byp v =>
      show byAfter ops (some v) = match byAfter ops (some v) with
        | some w => some w
        | Option.none => b
      rw [ih (some v)]
      cases byAfter ops Option.none <;> rfl
    | bxp v => exact ih b

lemma applyPeaks_indep_noperiod (emc : ℚ) (ops : List PeakOp)
    (s : GeneralConfigs)
    (hst : s.source_type = SourceType.horizontal_undulator
      ∨ s.source_type = SourceType.vertical_undulator
      ∨ s.source_type = SourceType.elliptic_undulator)
    (hp : s.period = Option.none)
    (hops : ∀ op ∈ ops, legitPeak s.source_type op) :
    applyPeaks emc ops s
      = { s with bx_peak := bxAfter ops s.bx_peak,
                 by_peak := byAfter ops s.by_peak } := by
  induction ops generalizing s with
  | nil => rfl
  | cons op ops ih =>
    have hop := hops op (by simp)
    have hops2 : ∀ o ∈ ops, legitPeak s.source_type o :=
      fun o ho => hops o (by simp [ho])
    cases op with
    | bxp v =>
      have hstep : applyPeak emc (PeakOp.bxp v) s
          = { s with bx_peak := some v } := by
        rcases hst with h | h | h <;>
          simp_all [applyPeak, set_bx_peak, bxDeriveKx_eq, bxHelical_eq,
            legitPeak]
      show applyPeaks emc ops (applyPeak emc (PeakOp.bxp v) s) = _
      rw [hstep, ih { s with bx_peak := some v } (by simpa using hst)
        (by simpa using hp) (by simpa using hops2)]
      rfl
    | byp v =>
      have hstep : applyPeak emc (PeakOp.byp v) s
          = { s with by_peak := some v } := by
        rcases hst with h | h | h <;>
          simp_all [applyPeak, set_by_peak, byDeriveKy_eq, byHelical_eq,
            legitPeak]
      show applyPeaks emc ops (applyPeak emc (PeakOp.byp v) s) = _
      rw [hstep, ih { s with by_peak := some v } (by simpa using hst)
        (by simpa using hp) (by simpa using hops2)]
      rfl

lemma applyPeaks_indep_withperiod (emc p : ℚ) (ops : List PeakOp)
    (s : GeneralConfigs)
    (hst : s.source_type = SourceType.horizontal_undulator
      ∨ s.source_type = SourceType.vertical_undulator
      ∨ s.source_type = SourceType.elliptic_undulator)
    (hp : s.period = some p)
    (hkx : s.kx = s.bx_peak.map (fun w => 1 / 1000 * emc * w * p))
    (hky : s.ky = s.by_peak.map (fun w => 1 / 1000 * emc * w * p))
    (hops : ∀ op ∈ ops, legitPeak s.source_type op) :
    applyPeaks emc ops s
      = { s with
          bx_peak := bxAfter ops s.bx_peak,
          by_peak := byAfter ops s.by_peak,
          kx := (bxAfter ops s.bx_peak).map (fun w => 1 / 1000 * emc * w * p),
          ky := (byAfter ops s.by_peak).map (fun w => 1 / 1000 * emc * w * p) } := by
  induction ops generalizing s with
  | nil =>
    show s = _
    rw [show bxAfter [] s.bx_peak = s.bx_peak from rfl,
      show byAfter [] s.by_peak = s.by_peak from rfl, ← hkx, ← hky]
  | cons op ops ih =>
    have hop := hops op (by simp)
    have hops2 : ∀ o ∈ ops, legitPeak s.source_type o :=
      fun o ho => hops o (by simp [ho])
    cases op with
    | bxp v =>
      have hstep : applyPeak emc (PeakOp.bxp v) s
          = { s with bx_peak := some v,
                     kx := some (1 / 1000 * emc * v * p) } := by
        rcases hst with h | h | h <;>
          simp_all [applyPeak, set_bx_peak, bxDeriveKx_eq, bxHelical_eq,
            legitPeak]
      show applyPeaks emc ops (applyPeak emc (PeakOp.bxp v) s) = _
      have ihs := ih { s with
          bx_peak := some v,
          kx := some (1 / 1000 * emc * v * p) } (by simpa using hst)
        (by simpa using hp) (by simp) (by simpa using hky)
        (by simpa using hops2)
      rw [hstep, ihs]
      rfl
    | byp v =>
      have hstep : applyPeak emc (PeakOp.byp v) s
          = { s with by_peak := some v,
                     ky := some (1 / 1000 * emc * v * p) } := by
        rcases hst with h | h | h <;>
          simp_all [applyPeak, set_by_peak, byDeriveKy_eq, byHelical_eq,
            legitPeak]
      show applyPeaks emc ops (applyPeak emc (PeakOp.byp v) s) = _
      have ihs := ih { s with
          by_peak := some v,
          ky := some (1 / 1000 * emc * v * p) } (by simpa using hst)
        (by simpa using hp) (by simpa using hkx) (by simp)
        (by simpa using hops2)
      rw [hstep, ihs]
      rfl

lemma applyPeaks_helical_noperiod (emc : ℚ) (ops : List PeakOp)
    (s : GeneralConfigs)
    (hst : s.source_type = SourceType.helical_undulator)
    (hp : s.period = Option.none) :
    applyPeaks emc ops s
      = { s with bx_peak := lastPeak ops s.bx_peak,
                 by_peak := lastPeak ops s.by_peak } := by
  induction ops generalizing s with
  | nil => rfl
  | cons op ops ih =>
    cases op with
    | bxp v =>
      have hstep : applyPeak emc (PeakOp.bxp v) s
          = { s with bx_peak := some v, by_peak := some v } := by
        simp_all [applyPeak, set_bx_peak, bxDeriveKx_eq, bxHelical_eq]
      show applyPeaks emc ops (applyPeak emc (PeakOp.bxp v) s) = _
      have ihs := ih { s with bx_peak := some v, by_peak := some v }
        (by simpa using hst) (by simpa using hp)
      rw [hstep, ihs]
      rfl
    | byp v =>
      have hstep : applyPeak emc (PeakOp.byp v) s
          = { s with bx_peak := some v, by_peak := some v } := by
        simp_all [applyPeak, set_by_peak, byDeriveKy_eq, byHelical_eq]
      show applyPeaks emc ops (applyPeak emc (PeakOp.byp v) s) = _
      have ihs := ih { s with bx_peak := some v, by_peak := some v }
        (by simpa using hst) (by simpa using hp)
      rw [hstep, ihs]
      rfl

lemma applyPeaks_helical_withperiod (emc p : ℚ) (ops : List PeakOp)
    (s : GeneralConfigs)
    (hst : s.source_type = SourceType.helical_undulator)
    (hp : s.period = some p)
    (hkx : s.kx = s.bx_peak.map (fun w => 1 / 1000 * emc * w * p))
    (hky : s.ky = s.by_peak.map (fun w => 1 / 1000 * emc * w * p)) :
    applyPeaks emc ops s
      = { s with
          bx_peak := lastPeak ops s.bx_peak,
          by_peak := lastPeak ops s.by_peak,
          kx := (lastPeak ops s.bx_peak).map (fun w => 1 / 1000 * emc * w * p),
          ky := (lastPeak ops s.by_peak).map (fun w => 1 / 1000 * emc * w * p) } := by
  induction ops generalizing s with
  | nil =>
    show s = _
    rw [show lastPeak [] s.bx_peak = s.bx_peak from rfl,
      show lastPeak [] s.by_peak = s.by_peak from rfl, ← hkx, ← hky]
  | cons op ops ih =>
    cases op with
    | bxp v =>
      have hstep : applyPeak emc (PeakOp.bxp v) s
          = { s with bx_peak := some v, by_peak := some v,
                     kx := some (1 / 1000 * emc * v * p),
                     ky := some (1 / 1000 * emc * v * p) } := by
        simp_all [applyPeak, set_bx_peak, bxDeriveKx_eq, bxHelical_eq]
      show applyPeaks emc ops (applyPeak emc (PeakOp.bxp v) s) = _
      have ihs := ih { s with
          bx_peak := some v,
          by_peak := some v,
          kx := some (1 / 1000 * emc * v * p),
          ky := some (1 / 1000 * emc * v * p) } (by simpa using hst)
        (by simpa using hp) (by simp) (by simp)
      rw [hstep, ihs]
      rfl
    | byp v =>
      have hstep : applyPeak emc (PeakOp.byp v) s
          = { s with bx_peak := some v, by_peak := some v,
                     kx := some (1 / 1000 * emc * v * p),
                     ky := some (1 / 1000 * emc * v * p) } := by
        simp_all [applyPeak, set_by_peak, byDeriveKy_eq, byHelical_eq]
      show applyPeaks emc ops (applyPeak emc (PeakOp.byp v) s) = _
      have ihs := ih { s with
          bx_peak := some v,
          by_peak := some v,
          kx := some (1 / 1000 * emc * v * p),
          ky := some (1 / 1000 * emc * v * p) } (by simpa using hst)
        (by simpa using hp) (by simp) (by simp)
      rw [hstep, ihs]
      rfl

/-- C4 counterexample: for a figure-8 undulator the order matters.  With
`ECHARGE_MC = 1`, assigning the period 100 first and then `bx_peak := 1`
gives `kx = 2e-3 * 1 * 1 * 100 = 1/5` (the setter doubles `kx`), while
assigning `bx_peak := 1` first and then the period gives
`kx = 1e-3 * 1 * 1 * 100 = 1/10` (the period setter never doubles). -/
theorem period_peak_commutation_counterexample :
    (set_bx_peak 1 (set_period 1 { initGeneralConfigs with
        source_type := SourceType.figure8_undulator } 100).1 1).1.kx
      ≠ (set_period 1 (set_bx_peak 1 { initGeneralConfigs with
        source_type := SourceType.figure8_undulator } 1).1 100).1.kx := by
  have hA1 : (set_period 1 { initGeneralConfigs with
      source_type := SourceType.figure8_undulator } 100).1
      = { initGeneralConfigs with
          source_type := SourceType.figure8_undulator,
          period := some 100 } := by
    simp [set_period, initGeneralConfigs, updKxFromBx_eq, updKyFromBy_eq,
      updBxFromKx_eq, updByFromKy_eq]
  have hA2 : (set_bx_peak 1 { initGeneralConfigs with
      source_type := SourceType.figure8_undulator,
      period := some 100 } 1).1.kx = some (1 / 5 : ℚ) := by
    simp [set_bx_peak, bxDeriveKx_eq, bxHelical_eq, initGeneralConfigs]
    norm_num
  have hB1 : (set_bx_peak 1 { initGeneralConfigs with
      source_type := SourceType.figure8_undulator } 1).1
      = { initGeneralConfigs with
          source_type := SourceType.figure8_undulator,
          bx_peak := some 1 } := by
    simp [set_bx_peak, bxDeriveKx_eq, bxHelical_eq, initGeneralConfigs]
  have hB2 : (set_period 1 { initGeneralConfigs with
      source_type := SourceType.figure8_undulator,
      bx_peak := some 1 } 100).1.kx = some (1 / 10 : ℚ) := by
    simp [set_period, updKxFromBx_eq, updKyFromBy_eq, updBxFromKx_eq,
      updByFromKy_eq, initGeneralConfigs]
    norm_num
  rw [hA1, hA2, hB1, hB2]
  norm_num

lemma comm_indep_aux (emc p : ℚ) (hemc : emc ≠ 0) (hp : p ≠ 0)
    (st : SourceType)
    (hst : st = SourceType.horizontal_undulator
      ∨ st = SourceType.vertical_undulator
      ∨ st = SourceType.elliptic_undulator)
    (ops : List PeakOp) (hops : ∀ op ∈ ops, legitPeak st op) :
    (set_period emc (applyPeaks emc ops
        { initGeneralConfigs with source_type := st }) p).1
      = applyPeaks emc ops (set_period emc
        { initGeneralConfigs with source_type := st } p).1 := by
  have h1 : st ≠ SourceType.user_defined := by
    rcases hst with rfl | rfl | rfl <;> decide
  have hA := applyPeaks_indep_noperiod emc ops
      { initGeneralConfigs with source_type := st } (by simpa using hst) rfl
      (by simpa using hops)
  have hper : (set_period emc { initGeneralConfigs with source_type := st }
        p).1
      = { initGeneralConfigs with source_type := st, period := some p } := by
    simp [set_period, initGeneralConfigs, h1, updKxFromBx_eq, updKyFromBy_eq,
      updBxFromKx_eq, updByFromKy_eq]
  have hB := applyPeaks_indep_withperiod emc p ops
      { initGeneralConfigs with source_type := st, period := some p }
      (by simpa using hst) rfl (by simp [initGeneralConfigs])
      (by simp [initGeneralConfigs]) (by simpa using hops)
  rw [hA, hper, hB]
  have harith : ∀ w : ℚ,
      1 / 1000 * emc * w * p / (emc * (1 / 1000) * p) = w := by
    intro w
    field_simp
    ring
  cases hB0 : bxAfter ops Option.none <;>
    cases hB1 : byAfter ops Option.none <;>
    simp_all [set_period, initGeneralConfigs, h1, updKxFromBx_eq,
      updKyFromBy_eq, updBxFromKx_eq, updByFromKy_eq, harith]

lemma comm_helical_aux (emc p : ℚ) (hemc : emc ≠ 0) (hp : p ≠ 0)
    (ops : List PeakOp) :
    (set_period emc (applyPeaks emc ops { initGeneralConfigs with
        source_type := SourceType.helical_undulator }) p).1
      = applyPeaks emc ops (set_period emc { initGeneralConfigs with
        source_type := SourceType.helical_undulator } p).1 := by
  have hA := applyPeaks_helical_noperiod emc ops
      { initGeneralConfigs with
        source_type := SourceType.helical_undulator } rfl rfl
  have hper : (set_period emc { initGeneralConfigs with
        source_type := SourceType.helical_undulator } p).1
      = { initGeneralConfigs with
          source_type := SourceType.helical_undulator,
          period := some p } := by
    simp [set_period, initGeneralConfigs, updKxFromBx_eq, updKyFromBy_eq,
      updBxFromKx_eq, updByFromKy_eq]
  have hB := applyPeaks_helical_withperiod emc p ops
      { initGeneralConfigs with
        source_type := SourceType.helical_undulator, period := some p }
      rfl rfl (by simp [initGeneralConfigs]) (by simp [initGeneralConfigs])
  rw [hA, hper, hB]
  have harith : ∀ w : ℚ,
      1 / 1000 * emc * w * p / (emc * (1 / 1000) * p) = w := by
    intro w
    field_simp
    ring
  cases hL : lastPeak ops Option.none <;>
    simp_all [set_period, initGeneralConfigs, updKxFromBx_eq,
      updKyFromBy_eq, updBxFromKx_eq, updByFromKy_eq, harith]

/-- C4 (amended): for every source type other than `user_defined`,
`figure8_undulator` and `vertical_figure8_undulator`, starting from a
fresh configuration, any legitimate sequence of peak-field assignments
commutes with the period assignment: the resulting state (in particular
`kx`, `ky`, `bx_peak`, `by_peak`) is the same whether the period is
assigned before or after the peak fields.  (For the two figure-8 types
the peak-field setters double the derived `K`, the period setter does
not, so the order matters there.) -/
theorem period_peak_commutation_amended (emc p : ℚ) (hemc : emc ≠ 0)
    (hp : p ≠ 0) (st : SourceType) (h1 : st ≠ SourceType.user_defined)
    (h2 : st ≠ SourceType.figure8_undulator)
    (h3 : st ≠ SourceType.vertical_figure8_undulator)
    (ops : List PeakOp) (hops : ∀ op ∈ ops, legitPeak st op) :
    (set_period emc (applyPeaks emc ops
        { initGeneralConfigs with source_type := st }) p).1
      = applyPeaks emc ops (set_period emc
        { initGeneralConfigs with source_type := st } p).1 := by
  cases st with
  | user_defined => exact absurd rfl h1
  | figure8_undulator => exact absurd rfl h2
  | vertical_figure8_undulator => exact absurd rfl h3
  | horizontal_undulator =>
    exact comm_indep_aux emc p hemc hp _ (Or.inl rfl) ops hops
  | vertical_undulator =>
    exact comm_indep_aux emc p hemc hp _ (Or.inr (Or.inl rfl)) ops hops
  | elliptic_undulator =>
    exact comm_indep_aux emc p hemc hp _ (Or.inr (Or.inr rfl)) ops hops
  | helical_undulator => exact comm_helical_aux emc p hemc hp ops

/-- Witness for the amended C4 at a concrete input: on an elliptic
undulator, `bx_peak := 1` and `period := 100` commute. -/
theorem period_peak_commutation_amended_check :
    (set_period 1 (applyPeaks 1 [PeakOp.bxp 1] { initGeneralConfigs with
        source_type := SourceType.elliptic_undulator }) 100).1
      = applyPeaks 1 [PeakOp.bxp 1] (set_period 1 { initGeneralConfigs with
        source_type := SourceType.elliptic_undulator } 100).1 :=
  period_peak_commutation_amended 1 100 (by decide) (by decide)
    SourceType.elliptic_undulator (by decide) (by decide) (by decide)
    [PeakOp.bxp 1]
    (by intro op hop
        rw [List.mem_singleton] at hop
        subst hop
        simp [legitPeak])

/-- C5 (evaluation at the failing input): on a helical undulator with
`ECHARGE_MC = 1` and period 100, the successful assignment `ky := 1`
leaves `by_peak = 10` but `bx_peak = None` (the helical branch of the
`ky` setter only performs the no-op `self._bx_peak = self.bx_peak`), so
the horizontal and vertical descriptors do not stay coupled. -/
theorem helical_coupling_violation :
    ((set_ky 1 (set_period 1 { initGeneralConfigs with
        source_type := SourceType.helical_undulator } 100).1 1).1.by_peak
      = some 10)
    ∧ ((set_ky 1 (set_period 1 { initGeneralConfigs with
        source_type := SourceType.helical_undulator } 100).1 1).1.bx_peak
      = Option.none)
    ∧ ((set_kx 1 (set_period 1 { initGeneralConfigs with
        source_type := SourceType.helical_undulator } 100).1 1).1.kx
      = some 1)
    ∧ ((set_kx 1 (set_period 1 { initGeneralConfigs with
        source_type := SourceType.helical_undulator } 100).1 1).1.ky
      = Option.none) := by
  have h1 : (set_period 1 { initGeneralConfigs with
      source_type := SourceType.helical_undulator } 100).1
      = { initGeneralConfigs with
          source_type := SourceType.helical_undulator,
          period := some 100 } := by
    simp [set_period, initGeneralConfigs, updKxFromBx_eq, updKyFromBy_eq,
      updBxFromKx_eq, updByFromKy_eq]
  rw [h1]
  refine ⟨?_, ?_, ?_, ?_⟩
  · simp [set_ky, kyDeriveBy_eq, kyHelical_eq, initGeneralConfigs]
    norm_num
  · simp [set_ky, kyDeriveBy_eq, kyHelical_eq, initGeneralConfigs]
  · simp [set_kx, kxDeriveBx_eq, kxHelical_eq, initGeneralConfigs]
  · simp [set_kx, kxDeriveBx_eq, kxHelical_eq, initGeneralConfigs]

/-- Predicate from the claim for C6: every field required by the active
independent variable is defined (with the slit fields additionally
required for the flux output under the energy variable). -/
def requiredParamsDefined (c : Calc) : Prop :=
  (c.indep_var = Variable.energy →
    c.energy_range ≠ Option.none ∧ c.energy_step ≠ Option.none
      ∧ c.slit_position ≠ Option.none
      ∧ (c.output_type = Output.flux →
          c.slit_acceptance ≠ Option.none ∧ c.slit_shape ≠ Option.none))
  ∧ (c.indep_var = Variable.mesh_xy →
      c.target_energy ≠ Option.none ∧ c.x_range ≠ Option.none
        ∧ c.y_range ≠ Option.none ∧ c.x_nr_pts ≠ Option.none
        ∧ c.y_nr_pts ≠ Option.none)
  ∧ (c.indep_var = Variable.k →
      c.harmonic_range ≠ Option.none ∧ c.k_range ≠ Option.none
        ∧ c.k_nr_pts ≠ Option.none ∧ c.slice_x ≠ Option.none
        ∧ c.slice_y ≠ Option.none ∧ c.slice_px ≠ Option.none
        ∧ c.slice_py ≠ Option.none)

lemma energyCheckErr_eq_none (c : Calc) :
    energyCheckErr c = Option.none ↔
      (c.indep_var = Variable.energy →
        c.energy_range ≠ Option.none ∧ c.energy_step ≠ Option.none
          ∧ c.slit_position ≠ Option.none
          ∧ (c.output_type = Output.flux →
              c.slit_acceptance ≠ Option.none
                ∧ c.slit_shape ≠ Option.none)) := by
  cases hv : c.indep_var <;> simp [energyCheckErr, hv] <;>
    split_ifs <;> simp_all

lemma meshCheckErr_eq_none (c : Calc) :
    meshCheckErr c = Option.none ↔
      (c.indep_var = Variable.mesh_xy →
        c.target_energy ≠ Option.none ∧ c.x_range ≠ Option.none
          ∧ c.y_range ≠ Option.none ∧ c.x_nr_pts ≠ Option.none
          ∧ c.y_nr_pts ≠ Option.none) := by
  cases hv : c.indep_var <;> simp [meshCheckErr, hv] <;>
    split_ifs <;> simp_all

lemma kCheckErr_eq_none (c : Calc) :
    kCheckErr c = Option.none ↔
      (c.indep_var = Variable.k →
        c.harmonic_range ≠ Option.none ∧ c.k_range ≠ Option.none
          ∧ c.k_nr_pts ≠ Option.none ∧ c.slice_x ≠ Option.none
          ∧ c.slice_y ≠ Option.none ∧ c.slice_px ≠ Option.none
          ∧ c.slice_py ≠ Option.none) := by
  cases hv : c.indep_var <;> simp [kCheckErr, hv] <;>
    split_ifs <;> simp_all

/-- C6: `verify_valid_parameters` returns `True` exactly when every field
required by the active independent variable is defined, never returns
`False`, and raises a `ValueError` when a required field is `None`. -/
theorem verify_valid_parameters_spec (c : Calc) :
    (verify_valid_parameters c = Except.ok true ↔ requiredParamsDefined c)
    ∧ (verify_valid_parameters c ≠ Except.ok false)
    ∧ (¬ requiredParamsDefined c →
        ∃ msg, verify_valid_parameters c = Except.error msg) := by
  have hreq : requiredParamsDefined c ↔
      (energyCheckErr c = Option.none ∧ meshCheckErr c = Option.none
        ∧ kCheckErr c = Option.none) := by
    unfold requiredParamsDefined
    rw [← energyCheckErr_eq_none c, ← meshCheckErr_eq_none c,
      ← kCheckErr_eq_none c]
  cases hE : energyCheckErr c <;> cases hM : meshCheckErr c <;>
    cases hK : kCheckErr c <;>
    simp_all [verify_valid_parameters]

/-- Witness for C6 at a concrete state: the initial `Calc` has the energy
variable active but no energy range, so verification raises. -/
theorem verify_valid_parameters_spec_check :
    ∃ msg, verify_valid_parameters initCalc = Except.error msg :=
  (verify_valid_parameters_spec initCalc).2.2 (fun h => (h.1 rfl).1 rfl)

lemma lookupKey_setKey_same (l : Section) (k : String) (v : Val) :
    lookupKey (setKey l k v) k = some v := by
  simp [setKey, lookupKey]

lemma lookupKey_setKey_ne (l : Section) (k key : String) (v : Val)
    (h : k ≠ key) : lookupKey (setKey l k v) key = lookupKey l key := by
  simp [setKey, lookupKey, h]

lemma lookupKey_writeEnergyRange_ne (c : Calc) (l : Section) (key : String)
    (h : key ≠ "Energy Range (eV)") :
    lookupKey (writeEnergyRange c l) key = lookupKey l key := by
  cases hv : c.energy_range
  · simp only [writeEnergyRange, hv]
  · simp only [writeEnergyRange, hv]
    rw [lookupKey_setKey_ne _ _ _ _ (Ne.symm h)]

lemma lookupKey_writeEnergyStep_ne (c : Calc) (l : Section) (key : String)
    (h : key ≠ "Energy Pitch (eV)") :
    lookupKey (writeEnergyStep c l) key = lookupKey l key := by
  cases hv : c.energy_step
  · simp only [writeEnergyStep, hv]
  · simp only [writeEnergyStep, hv]
    rw [lookupKey_setKey_ne _ _ _ _ (Ne.symm h)]

lemma lookupKey_writeObservationAngle_ne (c : Calc) (l : Section)
    (key : String) (h1 : key ≠ "Angle &theta;<sub>x,y</sub> (mrad)")
    (h2 : key ≠ "Slit Pos.: &theta;<sub>x,y</sub> (mrad)") :
    lookupKey (writeObservationAngle c l) key = lookupKey l key := by
  cases hv : c.slit_position
  · simp only [writeObservationAngle, hv]
  · simp only [writeObservationAngle, hv]
    split_ifs <;>
      first
      | exact lookupKey_setKey_ne _ _ _ _ (Ne.symm h1)
      | exact lookupKey_setKey_ne _ _ _ _ (Ne.symm h2)
      | rfl

lemma lookupKey_writeSlitAcceptance_ne (c : Calc) (sh : SlitShape)
    (l : Section) (key : String)
    (h1 : key ≠ "Slit &theta;<sub>1,2</sub> (mrad)")
    (h2 : key ≠ "&Delta;&theta;<sub>x,y</sub> (mrad)") :
    lookupKey (writeSlitAcceptance c sh l) key = lookupKey l key := by
  cases hv : c.slit_acceptance
  · simp only [writeSlitAcceptance, hv]
  · simp only [writeSlitAcceptance, hv]
    split_ifs <;>
      first
      | exact lookupKey_setKey_ne _ _ _ _ (Ne.symm h1)
      | exact lookupKey_setKey_ne _ _ _ _ (Ne.symm h2)
      | rfl

lemma lookupKey_writeTargetEnergy_ne (c : Calc) (l : Section) (key : String)
    (h : key ≠ "Target Energy (eV)") :
    lookupKey (writeTargetEnergy c l) key = lookupKey l key := by
  cases hv : c.target_energy
  · simp only [writeTargetEnergy, hv]
  · simp only [writeTargetEnergy, hv]
    rw [lookupKey_setKey_ne _ _ _ _ (Ne.symm h)]

lemma lookupKey_writeMeshXY_ne (c : Calc) (l : Section) (key : String)
    (h1 : key ≠ "&theta;<sub>x</sub> Range (mrad)")
    (h2 : key ≠ "&theta;<sub>y</sub> Range (mrad)")
    (h3 : key ≠ "Points (x)") (h4 : key ≠ "Points (y)") :
    lookupKey (writeMeshXY c l) key = lookupKey l key := by
  cases hv : c.x_range
  · simp only [writeMeshXY, hv]
  · simp only [writeMeshXY, hv]
    rw [lookupKey_setKey_ne _ _ _ _ (Ne.symm h4),
      lookupKey_setKey_ne _ _ _ _ (Ne.symm h3),
      lookupKey_setKey_ne _ _ _ _ (Ne.symm h2),
      lookupKey_setKey_ne _ _ _ _ (Ne.symm h1)]

lemma lookupKey_writeHarmonics_ne (c : Calc) (l : Section) (key : String)
    (h1 : key ≠ "Harmonic Range") (h2 : key ≠ "K Range")
    (h3 : key ≠ "Points (K)") (h4 : key ≠ "Slice X (mm)")
    (h5 : key ≠ "Slice Y (mm)") (h6 : key ≠ "Slice X\x27 (mrad)")
    (h7 : key ≠ "Slice Y\x27 (mrad)") :
    lookupKey (writeHarmonics c l) key = lookupKey l key := by
  cases hv : c.harmonic_range
  · simp only [writeHarmonics, hv]
  · simp only [writeHarmonics, hv]
    rw [lookupKey_setKey_ne _ _ _ _ (Ne.symm h7),
      lookupKey_setKey_ne _ _ _ _ (Ne.symm h6),
      lookupKey_setKey_ne _ _ _ _ (Ne.symm h5),
      lookupKey_setKey_ne _ _ _ _ (Ne.symm h4),
      lookupKey_setKey_ne _ _ _ _ (Ne.symm h3),
      lookupKey_setKey_ne _ _ _ _ (Ne.symm h2),
      lookupKey_setKey_ne _ _ _ _ (Ne.symm h1)]

lemma lookupKey_writeEnergyRange_defined (c : Calc) (l : Section)
    (v : List ℚ) (hv : c.energy_range = some v) :
    lookupKey (writeEnergyRange c l) "Energy Range (eV)"
      = some (Val.listq v) := by
  simp only [writeEnergyRange, hv]
  exact lookupKey_setKey_same _ _ _

lemma lookupKey_writeObservationAngle_fluxdensity (c : Calc) (l : Section)
    (v : List ℚ) (hv : c.slit_position = some v)
    (ho : c.output_type = Output.flux_density) :
    lookupKey (writeObservationAngle c l)
      "Angle &theta;<sub>x,y</sub> (mrad)" = some (Val.listq v) := by
  simp only [writeObservationAngle, hv, ho, if_pos]
  exact lookupKey_setKey_same _ _ _

lemma lookupKey_writeObservationAngle_flux (c : Calc) (l : Section)
    (v : List ℚ) (hv : c.slit_position = some v)
    (ho : c.output_type = Output.flux) :
    lookupKey (writeObservationAngle c l)
      "Slit Pos.: &theta;<sub>x,y</sub> (mrad)" = some (Val.listq v) := by
  simp [writeObservationAngle, hv, ho, lookupKey_setKey_same]

lemma lookupKey_writeSlitAcceptance_circular (c : Calc) (l : Section)
    (v : List ℚ) (hv : c.slit_acceptance = some v) :
    lookupKey (writeSlitAcceptance c SlitShape.circular l)
      "Slit &theta;<sub>1,2</sub> (mrad)" = some (Val.listq v) := by
  simp only [writeSlitAcceptance, hv, if_pos]
  exact lookupKey_setKey_same _ _ _

lemma lookupKey_writeSlitAcceptance_rectangular (c : Calc) (l : Section)
    (v : List ℚ) (hv : c.slit_acceptance = some v) :
    lookupKey (writeSlitAcceptance c SlitShape.rectangular l)
      "&Delta;&theta;<sub>x,y</sub> (mrad)" = some (Val.listq v) := by
  simp [writeSlitAcceptance, hv, lookupKey_setKey_same]

lemma configDoc_configurations (acc : StorageRingParameters) (t : Template)
    (c : Calc) (sh : SlitShape) :
    (configDoc acc t c sh).configurations
      = setKey
          (writeHarmonics c (writeMeshXY c (writeTargetEnergy c
            (writeSlitAcceptance c sh (writeObservationAngle c
              (writeEnergyStep c (writeEnergyRange c
                (writeLightSource c
                  (set_accelerator_config acc t)).configurations)))))))
          "Distance from the Source (m)"
          (Val.num c.distance_from_source) := rfl

/-- C7: `set_config` selects the JSON template named by the concatenation
of the source type, method, independent variable and output type joined
by underscores, appending the slit shape only when its tag is non-empty;
it writes `observation_angle` under the angle key for the flux-density
output and under the slit-position key for the flux output, writes
`slit_acceptance` under the circular-slit key for a circular slit and
under the rectangular-slit key for a rectangular slit, and always writes
`distance_from_source`. -/
theorem set_config_spec (rp : String) (acc : StorageRingParameters)
    (t : Template) (c : Calc) (sh : SlitShape)
    (hsh : c.slit_shape = some sh) :
    (set_config rp acc t c
      = some (rp ++ "/calculation_parameters/"
          ++ sourceTypeStr c.source_type ++ "_" ++ methodStr c.method
          ++ "_" ++ variableStr c.indep_var ++ "_"
          ++ outputStr c.output_type
          ++ (if slitShapeStr sh = "" then "" else "_" ++ slitShapeStr sh)
          ++ ".json",
        configDoc acc t c sh))
    ∧ (∀ v, c.slit_position = some v → c.output_type = Output.flux_density →
        lookupKey (configDoc acc t c sh).configurations
          "Angle &theta;<sub>x,y</sub> (mrad)" = some (Val.listq v))
    ∧ (∀ v, c.slit_position = some v → c.output_type = Output.flux →
        lookupKey (configDoc acc t c sh).configurations
          "Slit Pos.: &theta;<sub>x,y</sub> (mrad)" = some (Val.listq v))
    ∧ (∀ v, c.slit_acceptance = some v → sh = SlitShape.circular →
        lookupKey (configDoc acc t c sh).configurations
          "Slit &theta;<sub>1,2</sub> (mrad)" = some (Val.listq v))
    ∧ (∀ v, c.slit_acceptance = some v → sh = SlitShape.rectangular →
        lookupKey (configDoc acc t c sh).configurations
          "&Delta;&theta;<sub>x,y</sub> (mrad)" = some (Val.listq v))
    ∧ lookupKey (configDoc acc t c sh).configurations
        "Distance from the Source (m)"
        = some (Val.num c.distance_from_source) := by
  refine ⟨?_, ?_, ?_, ?_, ?_, ?_⟩
  · simp only [set_config, hsh, configFileName]
    split_ifs with h <;> simp [String.append_assoc, String.append_empty]
  · intro v hv ho
    rw [configDoc_configurations,
      lookupKey_setKey_ne _ _ _ _ (by decide),
      lookupKey_writeHarmonics_ne _ _ _ (by decide) (by decide) (by decide)
        (by decide) (by decide) (by decide) (by decide),
      lookupKey_writeMeshXY_ne _ _ _ (by decide) (by decide) (by decide)
        (by decide),
      lookupKey_writeTargetEnergy_ne _ _ _ (by decide),
      lookupKey_writeSlitAcceptance_ne _ _ _ _ (by decide) (by decide)]
    exact lookupKey_writeObservationAngle_fluxdensity _ _ _ hv ho
  · intro v hv ho
    rw [configDoc_configurations,
      lookupKey_setKey_ne _ _ _ _ (by decide),
      lookupKey_writeHarmonics_ne _ _ _ (by decide) (by decide) (by decide)
        (by decide) (by decide) (by decide) (by decide),
      lookupKey_writeMeshXY_ne _ _ _ (by decide) (by decide) (by decide)
        (by decide),
      lookupKey_writeTargetEnergy_ne _ _ _ (by decide),
      lookupKey_writeSlitAcceptance_ne _ _ _ _ (by decide) (by decide)]
    exact lookupKey_writeObservationAngle_flux _ _ _ hv ho
  · intro v hv hs
    subst hs
    rw [configDoc_configurations,
      lookupKey_setKey_ne _ _ _ _ (by decide),
      lookupKey_writeHarmonics_ne _ _ _ (by decide) (by decide) (by decide)
        (by decide) (by decide) (by decide) (by decide),
      lookupKey_writeMeshXY_ne _ _ _ (by decide) (by decide) (by decide)
        (by decide),
      lookupKey_writeTargetEnergy_ne _ _ _ (by decide)]
    exact lookupKey_writeSlitAcceptance_circular _ _ _ hv
  · intro v hv hs
    subst hs
    rw [configDoc_configurations,
      lookupKey_setKey_ne _ _ _ _ (by decide),
      lookupKey_writeHarmonics_ne _ _ _ (by decide) (by decide) (by decide)
        (by decide) (by decide) (by decide) (by decide),
      lookupKey_writeMeshXY_ne _ _ _ (by decide) (by decide) (by decide)
        (by decide),
      lookupKey_writeTargetEnergy_ne _ _ _ (by decide)]
    exact lookupKey_writeSlitAcceptance_rectangular _ _ _ hv
  · rw [configDoc_configurations]
    exact lookupKey_setKey_same _ _ _

/-- A concrete storage-ring parameter record, used to instantiate the
document-writing theorems. -/
def sampleRing : StorageRingParameters :=
  { energy := 3, current := 100, sigmaz := 1, nat_emittance := 1,
    coupling_constant := 1, energy_spread := 1, betax := 1, betay := 1,
    alphax := 0, alphay := 0, etax := 0, etay := 0, etapx := 0, etapy := 0,
    injection_condition := "Automatic", zero_emittance := false,
    zero_energy_spread := false }

/-- Witness for C7 at a concrete state: the initial `Calc` always has its
distance from the source written into the document. -/
theorem set_config_spec_check :
    lookupKey (configDoc sampleRing {} initCalc SlitShape.none).configurations
      "Distance from the Source (m)" = some (Val.num 10) :=
  (set_config_spec "." sampleRing {} initCalc SlitShape.none rfl).2.2.2.2.2

lemma reshape2_length (a b : ℕ) (v : List ℚ) : (reshape2 a b v).length = a := by
  simp [reshape2]

lemma reshape2_getD (a b : ℕ) (v : List ℚ) (i : ℕ) (hi : i < a) :
    (reshape2 a b v).getD i [] = (v.drop (i * b)).take b := by
  rw [List.getD_eq_getElem _ _ (by simpa [reshape2_length] using hi)]
  simp [reshape2]

lemma flip0_getD (m : List (List ℚ)) (i : ℕ) (hi : i < m.length) :
    (flip0 m).getD i [] = m.getD (m.length - 1 - i) [] := by
  unfold flip0
  rw [List.getD_eq_getElem _ _ (by simpa using hi),
    List.getElem_reverse,
    List.getD_eq_getElem _ _ (by omega)]

lemma take_drop_getD (v : List ℚ) (n b j : ℕ) (hj : j < b)
    (hlen : n + j < v.length) :
    ((v.drop n).take b).getD j 0 = v.getD (n + j) 0 := by
  rw [List.getD_eq_getElem _ _
      (by simp only [List.length_take, List.length_drop]; omega),
    List.getD_eq_getElem _ _ hlen]
  rw [List.getElem_take, List.getElem_drop]

lemma flip_reshape_elem (a b : ℕ) (v : List ℚ) (i j : ℕ) (hi : i < a)
    (hj : j < b) (hlen : v.length = a * b) :
    ((flip0 (reshape2 a b v)).getD i []).getD j 0
      = v.getD ((a - 1 - i) * b + j) 0 := by
  rw [flip0_getD _ _ (by simpa [reshape2_length] using hi), reshape2_length,
    reshape2_getD _ _ _ _ (by omega)]
  refine take_drop_getD _ _ _ _ hj ?_
  have h1 : a - 1 - i + 1 ≤ a := by omega
  have h2 : (a - 1 - i) * b + j < (a - 1 - i + 1) * b := by
    have : (a - 1 - i + 1) * b = (a - 1 - i) * b + b := by ring
    omega
  have h3 : (a - 1 - i + 1) * b ≤ a * b := Nat.mul_le_mul_right b h1
  omega

/-- C8: after a calculation, `flux` holds row 0 of the solver data; for
the `mesh_xy` variable, `flux`, `pl`, `pc` and `pl45` are each the row
reshaped to `(x.length, y.length)` and flipped along the first axis,
with `x` and `y` rows 0 and 1 of the output variables; for the `energy`
variable `pl`, `pc`, `pl45` are data rows 1–3 when there are 5 caption
titles, and `brilliance` is row 1 with `pl`, `pc`, `pl45` rows 2–4 when
there are 6; the reshape-and-flip places entry `(i, j)` at flat index
`(a - 1 - i) * b + j`. -/
theorem set_outputs_spec (titles : List String) (data vars : List (List ℚ))
    (o : Outputs) :
    ((set_outputs Variable.energy titles data vars o).flux
      = some (OutArr.vec (row data 0)))
    ∧ ((set_outputs Variable.k titles data vars o).flux
      = some (OutArr.vec (row data 0)))
    ∧ (titles.length = 5 →
        (set_outputs Variable.energy titles data vars o).pl
            = some (OutArr.vec (row data 1))
        ∧ (set_outputs Variable.energy titles data vars o).pc
            = some (OutArr.vec (row data 2))
        ∧ (set_outputs Variable.energy titles data vars o).pl45
            = some (OutArr.vec (row data 3))
        ∧ (set_outputs Variable.energy titles data vars o).energies
            = some (row vars 0))
    ∧ (titles.length = 6 →
        (set_outputs Variable.energy titles data vars o).brilliance
            = some (OutArr.vec (row data 1))
        ∧ (set_outputs Variable.energy titles data vars o).pl
            = some (OutArr.vec (row data 2))
        ∧ (set_outputs Variable.energy titles data vars o).pc
            = some (OutArr.vec (row data 3))
        ∧ (set_outputs Variable.energy titles data vars o).pl45
            = some (OutArr.vec (row data 4))
        ∧ (set_outputs Variable.energy titles data vars o).energies
            = some (row vars 0))
    ∧ ((set_outputs Variable.mesh_xy titles data vars o).x
          = some (row vars 0)
        ∧ (set_outputs Variable.mesh_xy titles data vars o).y
          = some (row vars 1)
        ∧ (set_outputs Variable.mesh_xy titles data vars o).flux
          = some (OutArr.mat (flip0 (reshape2 (row vars 0).length
              (row vars 1).length (row data 0))))
        ∧ (set_outputs Variable.mesh_xy titles data vars o).pl
          = some (OutArr.mat (flip0 (reshape2 (row vars 0).length
              (row vars 1).length (row data 1))))
        ∧ (set_outputs Variable.mesh_xy titles data vars o).pc
          = some (OutArr.mat (flip0 (reshape2 (row vars 0).length
              (row vars 1).length (row data 2))))
        ∧ (set_outputs Variable.mesh_xy titles data vars o).pl45
          = some (OutArr.mat (flip0 (reshape2 (row vars 0).length
              (row vars 1).length (row data 3)))))
    ∧ (∀ (a b : ℕ) (v : List ℚ), (flip0 (reshape2 a b v)).length = a)
    ∧ (∀ (a b : ℕ) (v : List ℚ) (i j : ℕ), i < a → j < b →
        v.length = a * b →
        ((flip0 (reshape2 a b v)).getD i []).getD j 0
          = v.getD ((a - 1 - i) * b + j) 0) := by
  refine ⟨?_, ?_, ?_, ?_, ?_, ?_, ?_⟩
  · by_cases h5 : titles.length = 5 <;> by_cases h6 : titles.length = 6 <;>
      simp [set_outputs, h5, h6]
  · rfl
  · intro h
    simp [set_outputs, h]
  · intro h
    simp [set_outputs, h]
  · refine ⟨rfl, rfl, rfl, rfl, rfl, rfl⟩
  · intro a b v
    simp [flip0, reshape2_length]
  · intro a b v i j hi hj hlen
    exact flip_reshape_elem a b v i j hi hj hlen

/-- Witness for C8 at concrete data: with x = [10, 20] and y = [30], the
reshaped and flipped flux of data row `[1, 2]` places entry `(0, 0)` at
flat index 1. -/
theorem set_outputs_spec_check :
    ((flip0 (reshape2 2 1 [1, 2])).getD 0 []).getD 0 0 = (2 : ℚ) := by
  have h := (set_outputs_spec [] [[1, 2]] [[10, 20], [30]]
      {}).2.2.2.2.2.2 2 1 [1, 2] 0 0 (by decide) (by decide) (by decide)
  simpa using h

/-- C9: every property setter of `GeneralConfigs` and `Calc` is atomic:
whenever it raises a `ValueError`, the object is left exactly as it was
(every validity check precedes every mutation). -/
theorem setter_atomicity (emc : ℚ) (call : SetterCall) (c : Calc)
    (h : (applySetter emc call c).2.isSome = true) :
    (applySetter emc call c).1 = c := by
  cases call <;>
    (simp only [applySetter, liftGC, set_source_type,
      set_distance_from_source, set_field, set_period, set_by_peak,
      set_bx_peak, set_ky, set_kx, set_id_length, set_method,
      set_indep_var, set_output_type, set_energy_range, set_energy_step,
      set_observation_angle, set_slit_acceptance, set_slit_shape,
      set_target_energy, set_x_range, set_y_range, set_x_nr_pts,
      set_y_nr_pts, set_harmonic_range, set_k_range, set_k_nr_pts,
      set_slice_x, set_slice_y, set_slice_px, set_slice_py,
      set_add_phase_error, set_random_seed, set_rms_peak_field_var,
      set_rms_phase_error, set_rms_trajectory_error] at h ⊢;
     try split_ifs at h ⊢) <;>
    simp_all

/-- Witness for C9 at a concrete state: assigning a period on the initial
(user-defined) configuration raises and leaves the state unchanged. -/
theorem setter_atomicity_check :
    (applySetter 1 (SetterCall.period 5) initCalc).1 = initCalc :=
  setter_atomicity 1 (SetterCall.period 5) initCalc (by decide)

/-- C10: assigning a mode selector touches no conditional field except
the three explicit resets — `indep_var := energy` resets `slit_position`
to `[0, 0]`, `indep_var := mesh_xy` resets `slit_position` to `None` and
`slit_shape` to the empty shape, `output_type := flux_density` resets
`slit_shape` to the empty shape — and a field set under a previous mode
(such as `energy_range`) is still serialized by `set_config` whatever the
current `indep_var` is. -/
theorem mode_selector_frame (c : Calc) (st : SourceType) (mth : Method)
    (ot : Output) :
    ((liftGC (fun g => set_source_type g st) c).1
        = { c with source_type := st })
    ∧ ((liftGC (fun g => set_source_type g st) c).2 = Option.none)
    ∧ ((set_method c mth).1 = { c with method := mth })
    ∧ ((set_method c mth).2 = Option.none)
    ∧ ((set_indep_var c Variable.energy).1
        = { c with indep_var := Variable.energy,
                   slit_position := some [0, 0] })
    ∧ ((set_indep_var c Variable.mesh_xy).1
        = { c with indep_var := Variable.mesh_xy,
                   slit_position := Option.none,
                   slit_shape := some SlitShape.none })
    ∧ ((set_indep_var c Variable.k).1 = { c with indep_var := Variable.k })
    ∧ ((set_output_type c Output.flux_density).1
        = { c with output_type := Output.flux_density,
                   slit_shape := some SlitShape.none })
    ∧ (ot ≠ Output.flux_density →
        (set_output_type c ot).1 = { c with output_type := ot })
    ∧ (∀ (rp : String) (acc : StorageRingParameters) (t : Template)
        (r : List ℚ) (nd : String × Template),
        c.energy_range = some r →
        set_config rp acc t c = some nd →
        lookupKey nd.2.configurations "Energy Range (eV)"
          = some (Val.listq r)) := by
  refine ⟨rfl, rfl, rfl, rfl, rfl, rfl, rfl, rfl, ?_, ?_⟩
  · intro h
    cases ot <;> simp_all [set_output_type]
  · intro rp acc t r nd hr hcfg
    cases hsh : c.slit_shape with
    | none => simp [set_config, hsh] at hcfg
    | some sh =>
      simp only [set_config, hsh, Option.some.injEq] at hcfg
      subst hcfg
      rw [configDoc_configurations,
        lookupKey_setKey_ne _ _ _ _ (by decide),
        lookupKey_writeHarmonics_ne _ _ _ (by decide) (by decide)
          (by decide) (by decide) (by decide) (by decide) (by decide),
        lookupKey_writeMeshXY_ne _ _ _ (by decide) (by decide) (by decide)
          (by decide),
        lookupKey_writeTargetEnergy_ne _ _ _ (by decide),
        lookupKey_writeSlitAcceptance_ne _ _ _ _ (by decide) (by decide),
        lookupKey_writeObservationAngle_ne _ _ _ (by decide) (by decide),
        lookupKey_writeEnergyStep_ne _ _ _ (by decide)]
      exact lookupKey_writeEnergyRange_defined _ _ _ hr

/-- Witness for C10 at a concrete state: an `energy_range` set while the
variable was `energy` is still written into the document. -/
theorem mode_selector_frame_check :
    lookupKey (configDoc sampleRing {} { initCalc with
        energy_range := some [1, 2] } SlitShape.none).configurations
      "Energy Range (eV)" = some (Val.listq [1, 2]) :=
  (mode_selector_frame { initCalc with energy_range := some [1, 2] }
      SourceType.user_defined Method.near_field Output.flux).2.2.2.2.2.2.2.2.2
    "." sampleRing {} [1, 2]
    (configFileName "." { initCalc with energy_range := some [1, 2] }
        SlitShape.none,
     configDoc sampleRing {} { initCalc with energy_range := some [1, 2] }
        SlitShape.none)
    rfl rfl

end Spectra
